import Mathlib

/-!
Verification development for the NEXTMIND chat-pipeline repository.

This file gives a shallow embedding, in Lean 4, of the deterministic parts of
the pipeline that the checked claims are about:

* `agent/tools.py` — `clean_lines_tool`, `calculate_totals_tool`;
* `agent/fast_path.py` — the fast-path routing heuristics and the step-5
  model-output handling;
* `agent/graph.py` — `_validate_tool_call`, `_heuristic_tool_choice`, the
  tool-call part of `router_node`, and `_build_messages_for_synthesis`;
* `agent/runtime.py` — the missing-field computation of `business_tools_node`;
* `agent/cache.py` — `normalize_question`, `RedisChatCache.get` / `.set`
  (the backing Redis store is modelled as a key/value map);
* `api/chat.py` — `_is_cacheable`, `_is_context_dependent`, and the cache-write
  control flow of the chat handlers.

Python values (dicts, lists, strings, numbers, None, booleans) are embedded as
the inductive type `PyVal`; `decimal.Decimal` arithmetic is embedded as exact
rational arithmetic over `ℚ` (the 28-significant-digit context rounding of the
`decimal` module never rounds on the magnitudes these claims exercise);
Python regular-expression searches are embedded pattern-by-pattern with a small
greedy matcher over an alternation/chunk pattern language that covers exactly
the constructs the source patterns use.  Word characters are modelled as the
ASCII word characters (the source applies most patterns to accent-stripped,
lowercased text).  Model calls are embedded as an explicit outcome parameter
(`LLMOutcome`): either a raised exception or returned content.
-/

namespace Nextmind

/-- Embedded Python value (the subset the pipeline manipulates):
`None`, `str`, numbers (`int`/`float`/`Decimal` merged as `ℚ`), `bool`,
`list`, and `dict` with string keys (insertion-ordered association list). -/
inductive PyVal where
  | pnone : PyVal
  | pstr  : String → PyVal
  | pnum  : ℚ → PyVal
  | pbool : Bool → PyVal
  | plist : List PyVal → PyVal
  | pdict : List (String × PyVal) → PyVal

mutual

/-- Decidable equality on embedded Python values. -/
def PyVal.decEq : (a b : PyVal) → Decidable (a = b)
  | .pnone, .pnone => .isTrue rfl
  | .pstr a, .pstr b =>
      if h : a = b then .isTrue (by rw [h]) else .isFalse (fun hc => h (by cases hc; rfl))
  | .pnum a, .pnum b =>
      if h : a = b then .isTrue (by rw [h]) else .isFalse (fun hc => h (by cases hc; rfl))
  | .pbool a, .pbool b =>
      if h : a = b then .isTrue (by rw [h]) else .isFalse (fun hc => h (by cases hc; rfl))
  | .plist a, .plist b =>
      match PyVal.decEqList a b with
      | .isTrue h => .isTrue (by rw [h])
      | .isFalse h => .isFalse (fun hc => h (by cases hc; rfl))
  | .pdict a, .pdict b =>
      match PyVal.decEqKV a b with
      | .isTrue h => .isTrue (by rw [h])
      | .isFalse h => .isFalse (fun hc => h (by cases hc; rfl))
  | .pnone, .pstr _ | .pnone, .pnum _ | .pnone, .pbool _ | .pnone, .plist _ | .pnone, .pdict _
  | .pstr _, .pnone | .pstr _, .pnum _ | .pstr _, .pbool _ | .pstr _, .plist _ | .pstr _, .pdict _
  | .pnum _, .pnone | .pnum _, .pstr _ | .pnum _, .pbool _ | .pnum _, .plist _ | .pnum _, .pdict _
  | .pbool _, .pnone | .pbool _, .pstr _ | .pbool _, .pnum _ | .pbool _, .plist _ | .pbool _, .pdict _
  | .plist _, .pnone | .plist _, .pstr _ | .plist _, .pnum _ | .plist _, .pbool _ | .plist _, .pdict _
  | .pdict _, .pnone | .pdict _, .pstr _ | .pdict _, .pnum _ | .pdict _, .pbool _ | .pdict _, .plist _ =>
      .isFalse (fun hc => by cases hc)

/-- Decidable equality on lists of embedded values. -/
def PyVal.decEqList : (a b : List PyVal) → Decidable (a = b)
  | [], [] => .isTrue rfl
  | [], _ :: _ => .isFalse (fun hc => by cases hc)
  | _ :: _, [] => .isFalse (fun hc => by cases hc)
  | x :: xs, y :: ys =>
      match PyVal.decEq x y with
      | .isFalse h => .isFalse (fun hc => h (by cases hc; rfl))
      | .isTrue h1 =>
          match PyVal.decEqList xs ys with
          | .isTrue h2 => .isTrue (by rw [h1, h2])
          | .isFalse h2 => .isFalse (fun hc => h2 (by cases hc; rfl))

/-- Decidable equality on string-keyed association lists of embedded values. -/
def PyVal.decEqKV : (a b : List (String × PyVal)) → Decidable (a = b)
  | [], [] => .isTrue rfl
  | [], _ :: _ => .isFalse (fun hc => by cases hc)
  | _ :: _, [] => .isFalse (fun hc => by cases hc)
  | (k1, v1) :: xs, (k2, v2) :: ys =>
      if hk : k1 = k2 then
        match PyVal.decEq v1 v2 with
        | .isFalse hv => .isFalse (fun hc => hv (by cases hc; rfl))
        | .isTrue hv =>
            match PyVal.decEqKV xs ys with
            | .isTrue ht => .isTrue (by rw [hk, hv, ht])
            | .isFalse ht => .isFalse (fun hc => ht (by cases hc; rfl))
      else .isFalse (fun hc => hk (by cases hc; rfl))

end

instance : DecidableEq PyVal := PyVal.decEq

namespace PyVal

/-- Python truthiness: `None`, `""`, `0`, `False`, `[]`, `{}` are falsy. -/
def truthy : PyVal → Bool
  | pnone    => false
  | pstr s   => s ≠ ""
  | pnum q   => q ≠ 0
  | pbool b  => b
  | plist l  => !l.isEmpty
  | pdict d  => !d.isEmpty

/-- Python `a or b` (value-returning). -/
def pyOr (a b : PyVal) : PyVal := if a.truthy then a else b

/-- Lookup in an embedded dict: `d.get(k)` (returns `None` when absent,
or when the value itself is not a dict). -/
def get : PyVal → String → PyVal
  | pdict kvs, k => (kvs.find? (fun kv => kv.1 = k)).elim pnone (·.2)
  | _, _ => pnone

/-- Lookup with an explicit default: `d.get(k, default)` — the default is used
only when the key is absent (a present `None` value is returned as-is). -/
def getD : PyVal → String → PyVal → PyVal
  | pdict kvs, k, dflt => (kvs.find? (fun kv => kv.1 = k)).elim dflt (·.2)
  | _, _, dflt => dflt

/-- Key membership: Python `k in d`. -/
def hasKey : PyVal → String → Bool
  | pdict kvs, k => kvs.any (fun kv => kv.1 = k)
  | _, _ => false

/-- Assignment `d[k] = v`: replaces the value of an existing key in place,
otherwise appends the pair (Python dicts preserve insertion order). -/
def setKey : PyVal → String → PyVal → PyVal
  | pdict kvs, k, v =>
      if kvs.any (fun kv => kv.1 = k) then
        pdict (kvs.map (fun kv => if kv.1 = k then (kv.1, v) else kv))
      else
        pdict (kvs ++ [(k, v)])
  | other, _, _ => other

/-- Python `isinstance(v, dict)`. -/
def isDict : PyVal → Bool
  | pdict _ => true
  | _ => false

/-- Python `isinstance(v, list)`. -/
def isList : PyVal → Bool
  | plist _ => true
  | _ => false

/-- Python `isinstance(v, str)`. -/
def isStr : PyVal → Bool
  | pstr _ => true
  | _ => false

/-- The list held by a `list` value (empty for anything else). -/
def asList : PyVal → List PyVal
  | plist l => l
  | _ => []

/-- The string held by a `str` value (empty for anything else). -/
def asStr : PyVal → String
  | pstr s => s
  | _ => ""

end PyVal

open PyVal

/-! ## String primitives

The pipeline sources lean on Python string methods (`strip`, `lower`,
`split`, `replace`, …).  We embed them as structural functions over the
character list of a string, so that concrete instances evaluate inside proofs. -/

/-- ASCII whitespace, as matched by `\s` and stripped by `str.strip()` on the
inputs we model. -/
def isSpaceChar (c : Char) : Bool :=
  c = ' ' ∨ c = '\t' ∨ c = '\n' ∨ c = '\r' ∨ c = '\x0b' ∨ c = '\x0c'

/-- Word character (`\w`), ASCII model. -/
def isWordChar (c : Char) : Bool := c.isAlphanum ∨ c = '_'

/-- Python `str.strip()`. -/
def strTrim (s : String) : String :=
  String.mk (((s.toList.dropWhile isSpaceChar).reverse.dropWhile isSpaceChar).reverse)

/-- Python `str.lower()` (ASCII model: `Char.toLower` lowers `A`–`Z`). -/
def strLower (s : String) : String :=
  String.mk (s.toList.map Char.toLower)

/-- Strip a literal from the front of a character list. -/
def stripLit : List Char → List Char → Option (List Char)
  | [], cs => some cs
  | _ :: _, [] => none
  | p :: ps, c :: cs => if p = c then stripLit ps cs else none

/-- Python `str.startswith(pre)`. -/
def strStartsWith (s pre : String) : Bool :=
  (stripLit pre.toList s.toList).isSome

/-- Python `str.endswith(suf)`. -/
def strEndsWith (s suf : String) : Bool :=
  (stripLit suf.toList.reverse s.toList.reverse).isSome

/-- Scan of `str.split(sep)` for a one-character separator, with the pending
piece accumulated in reverse. -/
def splitOnCharGo (sep : Char) : List Char → List Char → List String
  | [], acc => [String.mk acc.reverse]
  | c :: rest, acc =>
      if c = sep then String.mk acc.reverse :: splitOnCharGo sep rest []
      else splitOnCharGo sep rest (c :: acc)

/-- Python `str.split(sep)` for a one-character separator (the only separators
the sources split on are `"\n"` and `"?"`). -/
def strSplitOnChar (s : String) (sep : Char) : List String :=
  splitOnCharGo sep s.toList []

/-- Python `str.replace(old, new)` for one-character `old` and `new` (the only
replacements in the sources are `"?" → "."` and `"\n" → " "`). -/
def strReplaceChar (s : String) (c d : Char) : String :=
  String.mk (s.toList.map (fun x => if x = c then d else x))

/-- Decimal rendering of a rational whose denominator divides a power of ten:
used to model `str()` of Python ints/floats (which print in decimal).  Values
outside that range are rendered with a `/` (such values never arise from the
numeric payloads the pipeline handles; the rendering is only used for
truthiness and display, never parsed back in the claims). -/
def decimalRepr (q : ℚ) : String :=
  let sign := if q < 0 then "-" else ""
  let q' := |q|
  match (List.range 31).find? (fun k => q'.den ∣ 10 ^ k) with
  | some 0 => sign ++ toString q'.num
  | some k =>
      let scaled := (q' * (10 : ℚ) ^ k).num.toNat
      let digits := toString scaled
      let digits := String.mk (List.replicate (k + 1 - min digits.length (k + 1)) '0') ++ digits
      sign ++ String.mk (digits.toList.take (digits.length - k)) ++ "."
        ++ String.mk (digits.toList.drop (digits.length - k))
  | none => sign ++ toString q'.num ++ "/" ++ toString q'.den

/-- Python `str(value)` on embedded values.  Lists and dicts render to a
non-empty bracketed placeholder: the pipeline only ever tests such strings for
truthiness or feeds them to `Decimal` (where any bracketed form is invalid),
so the elided element text is irrelevant. -/
def pyStr : PyVal → String
  | pnone => "None"
  | pstr s => s
  | pnum q => decimalRepr q
  | pbool b => if b then "True" else "False"
  | plist _ => "[…]"
  | pdict _ => "\x7b…\x7d"

/-- Parse the integer value of a run of ASCII digits. -/
def digitsToNat (ds : List Char) : Nat :=
  ds.foldl (fun acc c => acc * 10 + (c.toNat - '0'.toNat)) 0

/-- Decimal-literal parser modelling `decimal.Decimal(string)` on the plain
forms `[sign] digits [. digits] [e [sign] digits]` (surrounding whitespace is
stripped, as the `Decimal` constructor does).  Other inputs — the ones that
make the constructor raise `InvalidOperation` — yield `none`. -/
def decOfString (s : String) : Option ℚ :=
  let cs := (strTrim s).toList
  let (sign, cs) : ℚ × List Char :=
    match cs with
    | '-' :: rest => (-1, rest)
    | '+' :: rest => (1, rest)
    | _ => (1, cs)
  let intDigits := cs.takeWhile Char.isDigit
  let cs := cs.dropWhile Char.isDigit
  let (fracDigits, cs) : List Char × List Char :=
    match cs with
    | '.' :: rest => (rest.takeWhile Char.isDigit, rest.dropWhile Char.isDigit)
    | _ => ([], cs)
  if intDigits.isEmpty ∧ fracDigits.isEmpty then none
  else
    let mantissa : ℚ :=
      (digitsToNat intDigits : ℚ) + (digitsToNat fracDigits : ℚ) / (10 : ℚ) ^ fracDigits.length
    match cs with
    | [] => some (sign * mantissa)
    | 'e' :: rest | 'E' :: rest =>
        let (esign, rest) : Bool × List Char :=
          match rest with
          | '-' :: r => (true, r)
          | '+' :: r => (false, r)
          | _ => (false, rest)
        let eDigits := rest.takeWhile Char.isDigit
        let rest := rest.dropWhile Char.isDigit
        if eDigits.isEmpty ∨ ¬rest.isEmpty then none
        else
          let e := digitsToNat eDigits
          some (sign * mantissa * (if esign then ((10 : ℚ) ^ e)⁻¹ else (10 : ℚ) ^ e))
    | _ => none

/-- Embeds `_normalize_decimal` (agent/tools.py): `Decimal(str(value))`, with
the given default on `InvalidOperation`/`TypeError`.  On a number, `str`
prints the decimal literal and `Decimal` reads it back exactly, so the value
passes through unchanged; on a string, `Decimal` parses it; `str` of `None`,
booleans, lists and dicts is never a valid decimal literal. -/
def normalizeDecimal (value : PyVal) (dflt : ℚ := 0) : ℚ :=
  match value with
  | .pnum q => q
  | .pstr s => (decOfString s).getD dflt
  | _ => dflt

/-! ## agent/tools.py — `clean_lines_tool` -/

/-- A cleaned output line of `clean_lines_tool`. -/
structure CleanedLine where
  description : String
  quantity : ℚ
  unit : Option String
  unitPriceHT : ℚ
  vatRate : ℚ
  discountRate : ℚ
  deriving DecidableEq

/-- A warning record emitted by `clean_lines_tool` (`index`, `issue`, plus the
optional extra field of the original dict — offending description or value). -/
structure CleanWarning where
  index : Nat
  issue : String
  detail : Option PyVal := none
  deriving DecidableEq

/-- Quantity as read by the cleaning/totals tools:
`line.get("quantity") or line.get("qty") or 0` fed to `_normalize_decimal`. -/
def lineQtyRaw (line : PyVal) : ℚ :=
  normalizeDecimal (pyOr (line.get "quantity") (pyOr (line.get "qty") (pnum 0)))

/-- Unit price as read by the cleaning/totals tools. -/
def linePriceRaw (line : PyVal) : ℚ :=
  normalizeDecimal (pyOr (line.get "unit_price_ht") (pyOr (line.get "unit_price") (pnum 0)))

/-- VAT rate as read by the cleaning/totals tools:
`line.get("vat_rate", default_vat_rate if default_vat_rate is not None else 20)`. -/
def lineVatRaw (line : PyVal) (defaultVatRate : Option ℚ) : ℚ :=
  normalizeDecimal (line.getD "vat_rate" (pnum (defaultVatRate.getD 20)))

/-- Discount rate as read by the cleaning/totals tools:
`line.get("discount_rate") or 0`. -/
def lineDiscountRaw (line : PyVal) : ℚ :=
  normalizeDecimal (pyOr (line.get "discount_rate") (pnum 0))

/-- Description as read by `clean_lines_tool`:
`str(line.get("description") or "").strip()`. -/
def lineDescRaw (line : PyVal) : String :=
  strTrim (pyStr (pyOr (line.get "description") (pstr "")))

/-- Per-line cleaning step of `clean_lines_tool`: the cleaned line (`none`
when the description is blank and the line is dropped) and the warnings the
line contributes, given the set of already-seen lowercased descriptions.  The
VAT rate is read as
`line.get("vat_rate", default_vat_rate if default_vat_rate is not None else 20)`. -/
def cleanOneLineD (defaultVatRate : Option ℚ) (seen : List String) (idx : Nat) (line : PyVal) :
    Option CleanedLine × List CleanWarning :=
  let desc := lineDescRaw line
  if desc = "" then
    (none, [{ index := idx, issue := "description_vide" }])
  else
    let key := strLower desc
    let dupWarnings :=
      if seen.contains key then
        [{ index := idx, issue := "duplicate_description", detail := some (pstr desc) : CleanWarning }]
      else []
    let qty := lineQtyRaw line
    let price := linePriceRaw line
    let vat := lineVatRaw line defaultVatRate
    let discount := lineDiscountRaw line
    let unit := strTrim (pyStr (pyOr (line.get "unit") (pstr "")))
    let unit := if unit = "" then none else some unit
    let negWarnings :=
      (if qty < 0 then
        [{ index := idx, issue := "negative_quantity", detail := some (pnum qty) : CleanWarning }]
       else []) ++
      (if price < 0 then
        [{ index := idx, issue := "negative_price", detail := some (pnum price) : CleanWarning }]
       else []) ++
      (if vat < 0 then
        [{ index := idx, issue := "negative_vat_rate", detail := some (pnum vat) : CleanWarning }]
       else [])
    (some { description := desc, quantity := |qty|, unit := unit,
            unitPriceHT := |price|, vatRate := |vat|, discountRate := discount },
     dupWarnings ++ negWarnings)

/-- Loop of `clean_lines_tool`, threading the index, the seen-description set
and accumulating cleaned lines and warnings in encounter order. -/
def cleanLinesGo (defaultVatRate : Option ℚ) (seen : List String) (idx : Nat) :
    List PyVal → List CleanedLine × List CleanWarning
  | [] => ([], [])
  | line :: rest =>
      let step := cleanOneLineD defaultVatRate seen idx line
      let seen' :=
        if lineDescRaw line = "" then seen else strLower (lineDescRaw line) :: seen
      let restResult := cleanLinesGo defaultVatRate seen' (idx + 1) rest
      (step.1.elim restResult.1 (· :: restResult.1), step.2 ++ restResult.2)

/-- Embeds `clean_lines_tool` (agent/tools.py): cleans quantities, units and
prices, drops blank-description lines, and records warnings. -/
def cleanLinesTool (lines : List PyVal) (defaultVatRate : Option ℚ := some 20) :
    List CleanedLine × List CleanWarning :=
  cleanLinesGo defaultVatRate [] 0 lines

/-! ## agent/tools.py — `calculate_totals_tool` -/

/-- An issue record of `calculate_totals_tool`. -/
structure TotalsIssue where
  index : Nat
  issue : String
  severity : String
  deriving DecidableEq

/-- Normalized echo line of `calculate_totals_tool` (description and unit are
echoed unmodified from the input dict). -/
structure NormalizedLine where
  description : PyVal
  quantity : ℚ
  unit : PyVal
  unitPriceHT : ℚ
  vatRate : ℚ
  discountRate : ℚ
  deriving DecidableEq

/-- Result of `calculate_totals_tool`. -/
structure TotalsResult where
  totalHT : ℚ
  totalTVA : ℚ
  totalTTC : ℚ
  issues : List TotalsIssue
  lines : List NormalizedLine
  docType : String
  deriving DecidableEq

/-- Pre-tax total of one line as computed by `calculate_totals_tool`:
`qty * price * (1 - discount / 100)`. -/
def lineTotalHT (line : PyVal) : ℚ :=
  lineQtyRaw line * linePriceRaw line * (1 - lineDiscountRaw line / 100)

/-- VAT amount of one line as computed by `calculate_totals_tool`:
`line_total_ht * vat_rate / 100`. -/
def lineTotalTVA (line : PyVal) (defaultVatRate : Option ℚ) : ℚ :=
  lineTotalHT line * lineVatRaw line defaultVatRate / 100

/-- Issues `calculate_totals_tool` raises for one line. -/
def lineIssues (idx : Nat) (line : PyVal) (defaultVatRate : Option ℚ) : List TotalsIssue :=
  (if lineQtyRaw line = 0 ∨ linePriceRaw line = 0 then
    [{ index := idx, issue := "zero_value_line", severity := "medium" }]
   else []) ++
  (if lineVatRaw line defaultVatRate = 0 then
    [{ index := idx, issue := "vat_missing_or_zero", severity := "low" }]
   else [])

/-- Normalized echo of one input line. -/
def normalizeLine (line : PyVal) (defaultVatRate : Option ℚ) : NormalizedLine :=
  { description := line.get "description"
    quantity := lineQtyRaw line
    unit := line.get "unit"
    unitPriceHT := linePriceRaw line
    vatRate := lineVatRaw line defaultVatRate
    discountRate := lineDiscountRaw line }

/-- Accumulation loop of `calculate_totals_tool`. -/
def calcTotalsGo (defaultVatRate : Option ℚ) (idx : Nat) :
    List PyVal → ℚ × ℚ × List TotalsIssue × List NormalizedLine
  | [] => (0, 0, [], [])
  | line :: rest =>
      let r := calcTotalsGo defaultVatRate (idx + 1) rest
      (lineTotalHT line + r.1,
       lineTotalTVA line defaultVatRate + r.2.1,
       lineIssues idx line defaultVatRate ++ r.2.2.1,
       normalizeLine line defaultVatRate :: r.2.2.2)

/-- Embeds `calculate_totals_tool` (agent/tools.py): computes HT/TVA/TTC
totals over the line dicts and flags numeric inconsistencies. -/
def calculateTotalsTool (lines : List PyVal) (defaultVatRate : Option ℚ := some 20)
    (docType : Option String := none) : TotalsResult :=
  let acc := calcTotalsGo defaultVatRate 0 lines
  { totalHT := acc.1
    totalTVA := acc.2.1
    totalTTC := acc.1 + acc.2.1
    issues := acc.2.2.1
    lines := acc.2.2.2
    docType := match docType with
      | some s => if s = "" then "quote" else s
      | none => "quote" }

/-! ## Regular-expression embedding

Every regex in the claim-relevant sources is an (optionally anchored)
alternation `(alt₁|alt₂|…)` of word sequences built from literals, `\s+`/`\s*`,
one-character classes `[…]`, optional pieces `(…)?`/`[…]?`, and word-boundary
assertions `\b`, always compiled with `re.IGNORECASE`.  We embed each pattern
as a list of alternatives over exactly those constructs and run a backtracking
matcher on the lowercased text (modelling `IGNORECASE`).  Word characters are
modelled as ASCII alphanumerics plus underscore; the source applies the
keyword patterns to accent-stripped text, and the concrete inputs appearing in
the theorems below keep non-ASCII characters away from boundary positions. -/

/-- One atom of an embedded regex alternative. -/
inductive Chunk where
  | lit (s : String)          -- literal text
  | ws1                       -- `\s+`
  | ws0                       -- `\s*`
  | cls (cs : List Char)      -- `[…]`, one character from the set
  | opt (s : String)          -- `(s)?` / `s?`, optional literal
  | optCls (cs : List Char)   -- `[…]?`, optional one-character class
  | wb                        -- `\b` word-boundary assertion

/-- Whether a word boundary stands between `prev` and the next character. -/
def boundaryBetween (prev next : Option Char) : Bool :=
  (prev.elim false isWordChar) ≠ (next.elim false isWordChar)

/-- Backtracking matcher for one alternative at a fixed position.  `prev` is
the character just before the current position (`none` at string start). -/
def matchChunks (prev : Option Char) : List Chunk → List Char → Bool
  | [], _ => true
  | .lit s :: rest, cs =>
      match stripLit s.toList cs with
      | some cs' => matchChunks (if s.isEmpty then prev else s.toList.getLast?) rest cs'
      | none => false
  | .ws1 :: rest, cs =>
      let sp := cs.takeWhile isSpaceChar
      !sp.isEmpty && matchChunks sp.getLast? rest (cs.dropWhile isSpaceChar)
  | .ws0 :: rest, cs =>
      let sp := cs.takeWhile isSpaceChar
      matchChunks (if sp.isEmpty then prev else sp.getLast?) rest (cs.dropWhile isSpaceChar)
  | .cls set :: rest, cs =>
      match cs with
      | c :: cs' => set.contains c && matchChunks (some c) rest cs'
      | [] => false
  | .opt s :: rest, cs =>
      (match stripLit s.toList cs with
       | some cs' => matchChunks (if s.isEmpty then prev else s.toList.getLast?) rest cs'
       | none => false)
      || matchChunks prev rest cs
  | .optCls set :: rest, cs =>
      (match cs with
       | c :: cs' => set.contains c && matchChunks (some c) rest cs'
       | [] => false)
      || matchChunks prev rest cs
  | .wb :: rest, cs =>
      boundaryBetween prev cs.head? && matchChunks prev rest cs

/-- A pattern: alternatives, each already carrying its trailing `\b` where the
source pattern has one. -/
def Pattern := List (List Chunk)

/-- Auxiliary scan of `re.search` for a pattern of shape `\b(alt|…)`:
try every position whose preceding character makes a boundary with a word
character (all alternatives start with word characters). -/
def searchAux (alts : Pattern) (prev : Option Char) (cs : List Char) : Bool :=
  ((prev.elim true (fun c => !isWordChar c)) && alts.any (fun alt => matchChunks prev alt cs))
  || match cs with
     | [] => false
     | c :: rest => searchAux alts (some c) rest

/-- Embeds `pattern.search(text)` for a pattern `\b(alt|…)\b` under
`re.IGNORECASE`: the text is lowercased and every start position is tried. -/
def reSearch (alts : Pattern) (text : String) : Bool :=
  searchAux alts none (strLower text).toList

/-- Embeds `pattern.search(text)` for an anchored pattern `^\s*(alt|…)\b`
under `re.IGNORECASE` (without `re.MULTILINE`, `^` only matches at the very
start of the text). -/
def reMatchStart (alts : Pattern) (text : String) : Bool :=
  let cs := (strLower text).toList
  let sp := cs.takeWhile isSpaceChar
  alts.any (fun alt => matchChunks sp.getLast? alt (cs.dropWhile isSpaceChar))

/-! ## Unicode normalization (`unicodedata.normalize("NFD", …)` + mark strip)

The sources normalize text by NFD-decomposing it and removing combining marks.
We model this on the precomposed Latin letters that occur in the French text
the pipeline handles, mapping each to its base letter and leaving every other
character unchanged. -/

/-- Accent-stripping table for the precomposed Latin characters in play. -/
def stripAccentChar (c : Char) : Char :=
  if c = 'à' ∨ c = 'â' ∨ c = 'ä' then 'a'
  else if c = 'é' ∨ c = 'è' ∨ c = 'ê' ∨ c = 'ë' then 'e'
  else if c = 'î' ∨ c = 'ï' then 'i'
  else if c = 'ô' ∨ c = 'ö' then 'o'
  else if c = 'ù' ∨ c = 'û' ∨ c = 'ü' then 'u'
  else if c = 'ç' then 'c'
  else if c = 'À' ∨ c = 'Â' ∨ c = 'Ä' then 'A'
  else if c = 'É' ∨ c = 'È' ∨ c = 'Ê' ∨ c = 'Ë' then 'E'
  else if c = 'Î' ∨ c = 'Ï' then 'I'
  else if c = 'Ô' ∨ c = 'Ö' then 'O'
  else if c = 'Ù' ∨ c = 'Û' ∨ c = 'Ü' then 'U'
  else if c = 'Ç' then 'C'
  else c

/-- NFD-decompose and drop combining marks, on the modelled character range. -/
def stripAccents (s : String) : String := String.mk (s.toList.map stripAccentChar)

mutual

/-- Collapse-whitespace scan, normal mode. -/
def collapseWsGo : List Char → List Char
  | [] => []
  | c :: rest =>
      if isSpaceChar c then ' ' :: collapseWsSkip rest else c :: collapseWsGo rest

/-- Collapse-whitespace scan just after an emitted space: swallow the rest of
the whitespace run. -/
def collapseWsSkip : List Char → List Char
  | [] => []
  | c :: rest =>
      if isSpaceChar c then collapseWsSkip rest else c :: collapseWsGo rest

end

/-- Collapse every maximal whitespace run to a single space
(`re.sub(r"\s+", " ", s)`). -/
def collapseWs (s : String) : String :=
  String.mk (collapseWsGo s.toList)

/-- Text normalization of `_should_use_full_pipeline` / `_is_fast_path_candidate`
(agent/fast_path.py): NFD + strip marks, collapse whitespace, lowercase, strip. -/
def fastPathNormalize (msg : String) : String :=
  strTrim (strLower (collapseWs (stripAccents msg)))

/-! ## Embedded patterns -/

namespace Pat

/-- `_GREETING_RE` (agent/fast_path.py). -/
def greeting : Pattern :=
  [[.lit "bonjour", .wb], [.lit "salut", .wb], [.lit "hello", .wb],
   [.lit "hey", .wb], [.lit "coucou", .wb], [.lit "bonsoir", .wb]]

/-- `_THANKS_RE` (agent/fast_path.py). -/
def thanks : Pattern :=
  [[.lit "merci", .wb], [.lit "thanks", .wb], [.lit "super", .wb],
   [.lit "parfait", .wb], [.lit "top", .wb]]

/-- `_WHO_RE` (agent/fast_path.py). -/
def who : Pattern :=
  [[.lit "t", .ws0, .lit "qui", .wb],
   [.lit "t", .cls ['\''], .lit "es", .ws0, .lit "qui", .wb],
   [.lit "tu", .ws0, .lit "es", .ws0, .lit "qui", .wb],
   [.lit "qui", .ws0, .lit "es", .cls ['-', ' '], .lit "tu", .wb]]

/-- `_REFERENCE_RE` (agent/fast_path.py). -/
def reference : Pattern :=
  [[.lit "projet", .opt "s", .ws1, .lit "de", .ws1,
    .lit "r", .cls ['e', 'é'], .lit "f", .cls ['e', 'é'], .lit "rence", .wb],
   [.lit "r", .cls ['e', 'é'], .lit "f", .cls ['e', 'é'], .lit "rence", .opt "s",
    .ws1, .lit "projet", .wb],
   [.lit "portfolio", .wb]]

/-- `_FULL_PIPELINE_HINT_RE` (agent/fast_path.py). -/
def fullPipelineHint : Pattern :=
  [[.lit "pdf", .wb], [.lit "docx", .wb], [.lit "fichier", .wb],
   [.lit "piece", .ws1, .lit "jointe", .wb],
   [.lit "pi", .cls ['e', 'è', 'é'], .lit "ce", .ws1, .lit "jointe", .wb],
   [.lit "analyse", .wb], [.lit "extraction", .wb], [.lit "extraire", .wb],
   [.lit "supabase", .wb], [.lit "historique", .wb], [.lit "prefill", .wb],
   [.lit "pre", .cls ['-', ' '], .lit "rempl", .wb],
   [.lit "pr", .cls ['e', 'é'], .cls ['-', ' '], .lit "rempl", .wb],
   [.lit "base", .ws1, .lit "de", .ws1, .lit "donn", .cls ['e', 'é'], .lit "es", .wb],
   [.lit "bdd", .wb]]

/-- `_FULL_PIPELINE_TERMS_RE` (agent/fast_path.py); applied to accent-stripped
text, hence no character classes. -/
def fullPipelineTerms : Pattern :=
  [[.lit "probleme", .wb], [.lit "panne", .wb], [.lit "defaut", .wb],
   [.lit "fuite", .wb], [.lit "fissure", .wb], [.lit "casse", .wb],
   [.lit "ne", .ws1, .lit "marche", .ws1, .lit "pas", .wb],
   [.lit "dysfonctionnement", .wb],
   [.lit "prix", .wb], [.lit "cout", .wb], [.lit "budget", .wb],
   [.lit "devis", .wb], [.lit "combien", .wb], [.lit "tarif", .wb],
   [.lit "taux", .ws1, .lit "horaire", .wb],
   [.lit "temps", .wb], [.lit "duree", .wb], [.lit "delai", .wb],
   [.lit "combien", .ws1, .lit "de", .ws1, .lit "temps", .wb],
   [.lit "comment", .wb], [.lit "pourquoi", .wb], [.lit "methode", .wb],
   [.lit "procedure", .wb],
   [.lit "diagnostic", .wb], [.lit "diagnostiquer", .wb], [.lit "verifier", .wb],
   [.lit "controler", .wb], [.lit "checklist", .wb], [.lit "preparer", .wb],
   [.lit "materiau", .wb], [.lit "materiaux", .wb], [.lit "quantite", .wb],
   [.lit "liste", .wb],
   [.lit "refaire", .wb], [.lit "renover", .wb], [.lit "poser", .wb],
   [.lit "installer", .wb], [.lit "remplacer", .wb], [.lit "reparer", .wb],
   [.lit "toiture", .wb], [.lit "charpente", .wb], [.lit "zinguerie", .wb],
   [.lit "gouttiere", .wb],
   [.lit "plomberie", .wb], [.lit "plombier", .wb], [.lit "electricite", .wb],
   [.lit "electricien", .wb], [.lit "peinture", .wb], [.lit "peintre", .wb],
   [.lit "carrelage", .wb], [.lit "carreleur", .wb], [.lit "faience", .wb],
   [.lit "placo", .wb], [.lit "plaquiste", .wb], [.lit "isolation", .wb],
   [.lit "vmc", .wb], [.lit "chauffage", .wb], [.lit "pac", .wb]]

/-- `_FAST_PATH_DEFINITION_RE` (agent/fast_path.py); anchored `^\s*(…)\b`. -/
def fastPathDefinition : Pattern :=
  [[.lit "c", .optCls ['\'', '’'], .lit "est", .ws1, .lit "quoi", .wb],
   [.lit "ca", .ws1, .lit "veut", .ws1, .lit "dire", .wb],
   [.lit "definition", .ws1, .lit "de", .wb],
   [.lit "abreviation", .ws1, .lit "de", .wb],
   [.lit "sigle", .ws1, .lit "de", .wb],
   [.lit "ca", .ws1, .lit "signifie", .ws1, .lit "quoi", .wb],
   [.lit "que", .ws1, .lit "veut", .ws1, .lit "dire", .wb]]

/-- `_FAST_PATH_META_RE` (agent/fast_path.py). -/
def fastPathMeta : Pattern :=
  [[.lit "sens", .ws1, .lit "de", .ws1, .lit "la", .ws1, .lit "vie", .wb],
   [.lit "metaphys", .wb], [.lit "philosoph", .wb]]

/-- `_CORPS_METIER_RE` (agent/rag/retriever.py). -/
def corpsMetier : Pattern :=
  [[.lit "corps", .ws1, .lit "de", .ws1, .lit "m", .cls ['e', 'é'], .lit "tier", .wb],
   [.lit "m", .cls ['e', 'é'], .lit "tier", .opt "s", .wb],
   [.lit "artisan", .wb],
   [.lit "quel", .ws1, .lit "pro", .wb],
   [.lit "quel", .ws1, .lit "professionnel", .wb],
   [.lit "qui", .ws1, .lit "appeler", .wb],
   [.lit "qui", .ws1, .lit "fait", .wb],
   [.lit "r", .cls ['o', 'ô'], .lit "le", .wb],
   [.lit "mission", .opt "s", .wb],
   [.lit "tarif", .wb],
   [.lit "taux", .ws1, .lit "horaire", .wb],
   [.lit "plombier", .wb], [.lit "plomberie", .wb],
   [.cls ['e', 'é'], .lit "lectricien", .wb],
   [.cls ['e', 'é'], .lit "lectricit", .cls ['e', 'é'], .wb],
   [.lit "ma", .cls ['c', 'ç'], .lit "on", .wb],
   [.lit "ma", .cls ['c', 'ç'], .lit "onnerie", .wb],
   [.lit "peintre", .wb], [.lit "peinture", .wb],
   [.lit "carreleur", .wb], [.lit "carrelage", .wb],
   [.lit "fa", .cls ['i', 'ï'], .lit "ence", .wb],
   [.lit "plaquiste", .wb], [.lit "placo", .wb], [.lit "isolation", .wb],
   [.lit "chauffagiste", .wb], [.lit "chauffage", .wb],
   [.lit "clim", .opt "atisation", .wb],
   [.lit "ventilation", .wb], [.lit "vmc", .wb], [.lit "pac", .wb],
   [.lit "chaudi", .cls ['e', 'è'], .lit "re", .wb]]

/-- `_LOOKUP_HINT_RE` (agent/graph.py). -/
def lookupHint : Pattern :=
  [[.lit "client", .wb], [.lit "clients", .wb], [.lit "materiau", .wb],
   [.lit "mat", .cls ['e', 'é'], .lit "riaux", .wb],
   [.lit "historique", .wb], [.lit "prefill", .wb]]

/-- `_LOOKUP_ACTION_RE` (agent/graph.py). -/
def lookupAction : Pattern :=
  [[.lit "trouve", .wb], [.lit "trouver", .wb], [.lit "cherche", .wb],
   [.lit "chercher", .wb], [.lit "recherche", .wb], [.lit "rechercher", .wb],
   [.lit "retrouve", .wb], [.lit "retrouver", .wb], [.lit "lookup", .wb]]

/-- `_TOTALS_HINT_RE` (agent/graph.py). -/
def totalsHint : Pattern :=
  [[.lit "total", .wb], [.lit "totaux", .wb], [.lit "tva", .wb],
   [.lit "ttc", .wb], [.lit "ht", .wb]]

/-- `_CLEAN_HINT_RE` (agent/graph.py). -/
def cleanHint : Pattern :=
  [[.lit "nettoi", .wb], [.lit "d", .cls ['e', 'é'], .lit "doubl", .wb],
   [.lit "uniformi", .wb]]

/-- `_VALIDATE_HINT_RE` (agent/graph.py). -/
def validateHint : Pattern :=
  [[.lit "valid", .wb], [.lit "corrig", .wb], [.lit "conform", .wb]]

/-- `_ANALYZE_HINT_RE` (agent/graph.py). -/
def analyzeHint : Pattern :=
  [[.lit "analy", .wb], [.lit "analyse", .wb], [.lit "pdf", .wb],
   [.lit "docx", .wb], [.lit "document", .wb], [.lit "fichier", .wb],
   [.lit "pi", .cls ['e', 'è'], .lit "ce jointe", .wb]]

end Pat

/-- Embeds `is_corps_metier_question` (agent/rag/retriever.py). -/
def isCorpsMetierQuestion (message : String) : Bool :=
  let msg := strTrim message
  if msg = "" then false else reSearch Pat.corpsMetier msg

/-! ## agent/fast_path.py — routing heuristics -/

/-- Canned reply for an empty message. -/
def fastEmptyReply : String :=
  "Je peux t'aider sur tes devis/factures BTP. Quelle est ta question ?"

/-- Canned reply of the who-am-I heuristic. -/
def fastWhoReply : String :=
  "Je suis NEXTMIND, ton assistant IA BTP (devis, factures, travaux, matériaux, conformité)."

/-- Canned reply of the greeting heuristic. -/
def fastGreetingReply : String :=
  "Bonjour ! Dis-moi ce dont tu as besoin (devis, facture, estimation, travaux, matériaux…)."

/-- Canned reply of the thanks heuristic. -/
def fastThanksReply : String :=
  "Avec plaisir. Tu veux que je t'aide sur quoi maintenant ?"

/-- Canned reply of the portfolio-reference heuristic (content abbreviated to
its first line; only identity and non-emptiness of the reply matter here). -/
def fastReferenceReply : String :=
  "Oui. Exemples de projets “références” BTP (résidentiel) :\n- Rénovation complète de salle de bain (plomberie + carrelage + ventilation)\n- Rénovation cuisine (réseaux + finitions)\n- Peinture + sols (remise en état)\n- Rénovation toiture/isolations\n- Extension/garage\n\nTu cherches des références pour quel type de travaux ?"

/-- Embeds `_heuristic_fast_reply` (agent/fast_path.py). -/
def heuristicFastReply (message : String) : Option String :=
  let msg := strTrim message
  if msg = "" then some fastEmptyReply
  else if reMatchStart Pat.who msg then some fastWhoReply
  else if reMatchStart Pat.greeting msg then some fastGreetingReply
  else if reSearch Pat.thanks msg ∧ msg.length < 60 then some fastThanksReply
  else if reSearch Pat.reference msg then some fastReferenceReply
  else none

/-- Embeds `_has_structured_metadata` (agent/fast_path.py). -/
def hasStructuredMetadata (metadata : PyVal) : Bool :=
  if ¬metadata.isDict then false
  else if (metadata.get "structured_payload").isDict then true
  else ["customer_name", "client_name", "supplier_name", "line_items", "items",
        "doc_type", "docType", "validate_section", "mode", "files"].any
         (fun k => metadata.hasKey k)

/-- Embeds `_should_use_full_pipeline` (agent/fast_path.py). -/
def shouldUseFullPipeline (message : String) (metadata : PyVal) : Bool :=
  if hasStructuredMetadata metadata then true
  else
    let msg := strTrim message
    if msg = "" then false
    else if reSearch Pat.fullPipelineHint msg then true
    else reSearch Pat.fullPipelineTerms (fastPathNormalize msg)

/-- Embeds `_is_fast_path_candidate` (agent/fast_path.py). -/
def isFastPathCandidate (message : String) : Bool :=
  let msg := strTrim message
  if msg = "" then true
  else if reMatchStart Pat.greeting msg ∨ reSearch Pat.thanks msg
          ∨ reMatchStart Pat.who msg then true
  else
    let normalized := fastPathNormalize msg
    if reSearch Pat.fastPathMeta normalized then true
    else reSearch Pat.fastPathDefinition normalized ∧ normalized.length ≤ 90

/-! ## JSON (`json.loads` / `json.dumps`)

A small strict JSON parser and serializer over `PyVal`, modelling the Python
`json` module on the value shapes the pipeline exchanges (objects, arrays,
strings with escapes, numbers, `null`, booleans).  Recursion is fuelled; the
top-level entry supplies ample fuel for the input length. -/

/-- JSON whitespace skip. -/
def jsonSkipWs (cs : List Char) : List Char :=
  cs.dropWhile (fun c => c = ' ' ∨ c = '\t' ∨ c = '\n' ∨ c = '\r')

/-- Hexadecimal digit value. -/
def hexVal (c : Char) : Option Nat :=
  if '0' ≤ c ∧ c ≤ '9' then some (c.toNat - '0'.toNat)
  else if 'a' ≤ c ∧ c ≤ 'f' then some (c.toNat - 'a'.toNat + 10)
  else if 'A' ≤ c ∧ c ≤ 'F' then some (c.toNat - 'A'.toNat + 10)
  else none

/-- Parse the body of a JSON string after the opening quote, handling the
escape sequences `json.loads` accepts and rejecting raw control characters. -/
def parseJsonStringBody : List Char → Option (List Char × List Char)
  | [] => none
  | '"' :: rest => some ([], rest)
  | '\\' :: 'u' :: h1 :: h2 :: h3 :: h4 :: rest => do
      let n1 ← hexVal h1
      let n2 ← hexVal h2
      let n3 ← hexVal h3
      let n4 ← hexVal h4
      let (body, r) ← parseJsonStringBody rest
      some (Char.ofNat (((n1 * 16 + n2) * 16 + n3) * 16 + n4) :: body, r)
  | '\\' :: e :: rest => do
      let c ← match e with
        | '"' => some '"'
        | '\\' => some '\\'
        | '/' => some '/'
        | 'b' => some '\x08'
        | 'f' => some '\x0c'
        | 'n' => some '\n'
        | 'r' => some '\r'
        | 't' => some '\t'
        | _ => none
      let (body, r) ← parseJsonStringBody rest
      some (c :: body, r)
  | c :: rest =>
      if c.toNat < 32 then none
      else do
        let (body, r) ← parseJsonStringBody rest
        some (c :: body, r)

/-- Parse a JSON number (strict grammar: no leading zeros, mandatory digits
in fraction and exponent). -/
def parseJsonNumber (cs : List Char) : Option (ℚ × List Char) :=
  let (sign, cs) : ℚ × List Char :=
    match cs with
    | '-' :: rest => (-1, rest)
    | _ => (1, cs)
  let intDigits := cs.takeWhile Char.isDigit
  let cs := cs.dropWhile Char.isDigit
  if intDigits.isEmpty then none
  else if intDigits.length > 1 ∧ intDigits.headD '0' = '0' then none
  else
    let (fracDigits, cs) : List Char × List Char :=
      match cs with
      | '.' :: rest => (rest.takeWhile Char.isDigit, rest.dropWhile Char.isDigit)
      | _ => ([], cs)
    if (match cs with | '.' :: _ => true | _ => false) then none
    else
      let mantissa : ℚ :=
        (digitsToNat intDigits : ℚ) + (digitsToNat fracDigits : ℚ) / (10 : ℚ) ^ fracDigits.length
      match cs with
      | 'e' :: rest | 'E' :: rest =>
          let (esign, rest) : Bool × List Char :=
            match rest with
            | '-' :: r => (true, r)
            | '+' :: r => (false, r)
            | _ => (false, rest)
          let eDigits := rest.takeWhile Char.isDigit
          let rest := rest.dropWhile Char.isDigit
          if eDigits.isEmpty then none
          else
            let e := digitsToNat eDigits
            some (sign * mantissa * (if esign then ((10 : ℚ) ^ e)⁻¹ else (10 : ℚ) ^ e), rest)
      | _ => some (sign * mantissa, cs)

mutual

/-- Fuelled JSON value parser. -/
def parseJsonValue : Nat → List Char → Option (PyVal × List Char)
  | 0, _ => none
  | fuel + 1, cs =>
      match jsonSkipWs cs with
      | 'n' :: 'u' :: 'l' :: 'l' :: rest => some (.pnone, rest)
      | 't' :: 'r' :: 'u' :: 'e' :: rest => some (.pbool true, rest)
      | 'f' :: 'a' :: 'l' :: 's' :: 'e' :: rest => some (.pbool false, rest)
      | '"' :: rest =>
          match parseJsonStringBody rest with
          | some (body, r) => some (.pstr (String.mk body), r)
          | none => none
      | '[' :: rest =>
          match jsonSkipWs rest with
          | ']' :: r => some (.plist [], r)
          | r =>
              match parseJsonItems fuel r with
              | some (items, r') => some (.plist items, r')
              | none => none
      | '\x7b' :: rest =>
          match jsonSkipWs rest with
          | '\x7d' :: r => some (.pdict [], r)
          | r =>
              match parseJsonMembers fuel r with
              | some (obj, r') => some (obj, r')
              | none => none
      | rest =>
          match parseJsonNumber rest with
          | some (q, r) => some (.pnum q, r)
          | none => none

/-- Fuelled parser for the comma-separated items of a JSON array, up to and
including the closing bracket. -/
def parseJsonItems : Nat → List Char → Option (List PyVal × List Char)
  | 0, _ => none
  | fuel + 1, cs => do
      let (v, rest) ← parseJsonValue fuel cs
      match jsonSkipWs rest with
      | ',' :: r =>
          match parseJsonItems fuel r with
          | some (items, r') => some (v :: items, r')
          | none => none
      | ']' :: r => some ([v], r)
      | _ => none

/-- Fuelled parser for the members of a JSON object, up to and including the
closing brace; a repeated key keeps the last value at the first position,
as Python dicts do. -/
def parseJsonMembers : Nat → List Char → Option (PyVal × List Char)
  | 0, _ => none
  | fuel + 1, cs =>
      match jsonSkipWs cs with
      | '"' :: rest => do
          let (keyBody, r) ← parseJsonStringBody rest
          match jsonSkipWs r with
          | ':' :: r' => do
              let (v, r'') ← parseJsonValue fuel r'
              let key := String.mk keyBody
              match jsonSkipWs r'' with
              | ',' :: r3 =>
                  match parseJsonMembers fuel r3 with
                  | some (.pdict kvs, r4) =>
                      match kvs.find? (fun kv => kv.1 = key) with
                      | some kv =>
                          some (.pdict ((key, kv.2) :: kvs.filter (fun p => p.1 ≠ key)), r4)
                      | none => some (.pdict ((key, v) :: kvs), r4)
                  | _ => none
              | '\x7d' :: r3 => some (.pdict [(key, v)], r3)
              | _ => none
          | _ => none
      | _ => none

end

/-- Embeds `json.loads`: parse a complete JSON document (any value at top
level), requiring only whitespace after it. -/
def jsonLoads (s : String) : Option PyVal :=
  let cs := s.toList
  match parseJsonValue (4 * (cs.length + 1)) cs with
  | some (v, rest) => if (jsonSkipWs rest).isEmpty then some v else none
  | none => none

/-- Escape one character for a JSON string literal (`ensure_ascii=False`:
non-ASCII characters pass through unescaped). -/
def jsonEscapeChar (c : Char) : String :=
  if c = '"' then "\\\""
  else if c = '\\' then "\\\\"
  else if c = '\n' then "\\n"
  else if c = '\r' then "\\r"
  else if c = '\t' then "\\t"
  else if c = '\x08' then "\\b"
  else if c = '\x0c' then "\\f"
  else if c.toNat < 32 then
    "\\u00" ++ String.mk ["0123456789abcdef".toList.getD (c.toNat / 16) '0',
                          "0123456789abcdef".toList.getD (c.toNat % 16) '0']
  else String.mk [c]

mutual

/-- Embeds `json.dumps(value, ensure_ascii=False)` with the default
separators.  Numbers print in plain decimal via `decimalRepr` (the merged
int/float representation of `PyVal` does not distinguish `2` from `2.0`). -/
def jsonDumps : PyVal → String
  | .pnone => "null"
  | .pbool true => "true"
  | .pbool false => "false"
  | .pnum q => decimalRepr q
  | .pstr s => "\"" ++ String.join (s.toList.map jsonEscapeChar) ++ "\""
  | .plist xs => "[" ++ jsonDumpsList xs ++ "]"
  | .pdict kvs => "\x7b" ++ jsonDumpsKV kvs ++ "\x7d"

/-- Serialize array items, comma-separated. -/
def jsonDumpsList : List PyVal → String
  | [] => ""
  | [x] => jsonDumps x
  | x :: rest => jsonDumps x ++ ", " ++ jsonDumpsList rest

/-- Serialize object members, comma-separated. -/
def jsonDumpsKV : List (String × PyVal) → String
  | [] => ""
  | [(k, v)] => jsonDumps (.pstr k) ++ ": " ++ jsonDumps v
  | (k, v) :: rest => jsonDumps (.pstr k) ++ ": " ++ jsonDumps v ++ ", " ++ jsonDumpsKV rest

end

/-! ## agent/fast_path.py — step-5 model-output handling -/

/-- Strip a leading code fence: `re.sub(r"^```(?:json)?\s*", "", s, re.IGNORECASE)`. -/
def stripFenceStart (s : String) : String :=
  let lower := strLower s
  if strStartsWith lower "```json" then
    String.mk ((s.toList.drop 7).dropWhile isSpaceChar)
  else if strStartsWith lower "```" then
    String.mk ((s.toList.drop 3).dropWhile isSpaceChar)
  else s

/-- Strip a trailing code fence: `re.sub(r"\s*```$", "", s)`. -/
def stripFenceEnd (s : String) : String :=
  if strEndsWith s "```" then
    String.mk ((s.toList.take (s.length - 3)).reverse.dropWhile isSpaceChar).reverse
  else s

/-- Embeds `_maybe_parse_json` (agent/fast_path.py): strip code fences, try a
strict parse, then a brace-delimited substring parse. -/
def maybeParseJson (text : String) : Option PyVal :=
  if text = "" then none
  else
    let cleaned := stripFenceEnd (stripFenceStart (strTrim text))
    match jsonLoads cleaned with
    | some v => some v
    | none =>
        let cs := cleaned.toList
        match cs.indexOf? '\x7b', (cs.reverse.indexOf? '\x7d').map (fun i => cs.length - 1 - i) with
        | some start, some stop =>
            if stop > start then jsonLoads (String.mk ((cs.take (stop + 1)).drop start))
            else none
        | _, _ => none

/-- Embeds the `FastPathPayload` pydantic model: `answer: str` with
`min_length=1` and `question: str | None = None`; extra keys are ignored and
no cross-type coercion applies. -/
def validateFastPathPayload (v : PyVal) : Option (String × Option String) :=
  match v.get "answer" with
  | .pstr a =>
      if a.length ≥ 1 then
        match v.get "question" with
        | .pstr q => some (a, some q)
        | .pnone => some (a, none)
        | _ => none
      else none
  | _ => none

/-- Strip trailing `.` characters (`str.rstrip(".")`). -/
def rstripDots (s : String) : String :=
  String.mk (s.toList.reverse.dropWhile (· = '.')).reverse

/-- Embeds `_normalize_followup_question` (agent/fast_path.py). -/
def normalizeFollowupQuestion : Option String → Option String
  | none => none
  | some v =>
      let q := strTrim v
      if q = "" then none
      else
        let q := strTrim ((strSplitOnChar q '\n').headD "")
        let q :=
          if q.toList.contains '?' then strTrim ((strSplitOnChar q '?').headD "") ++ " ?"
          else q
        let q := if strEndsWith q "?" then q else rstripDots q ++ " ?"
        some (strTrim (collapseWs q))

/-- Embeds the raw-text fallback at the end of `try_fast_path`: keep the first
six non-blank lines and collapse multiple questions into the last one. -/
def fastPathCompactFallback (text : String) : Option String :=
  let lines := ((strSplitOnChar text '\n').map strTrim).filter (· ≠ "")
  if lines.isEmpty then none
  else
    let compact := strTrim (String.intercalate "\n" (lines.take 6))
    let compact :=
      if (compact.toList.filter (· = '?')).length > 1 then
        let parts := strSplitOnChar compact '?'
        let kept := if parts.length ≥ 2 then strTrim (parts.getD (parts.length - 2) "") else ""
        let statements :=
          strTrim (strReplaceChar (String.intercalate "?" (parts.take (parts.length - 2))) '?' '.')
        if statements ≠ "" ∧ kept ≠ "" then statements ++ "\n\n" ++ kept ++ " ?"
        else strTrim (if statements ≠ "" then statements else kept)
      else compact
    some compact

/-- Outcome of the single fast-model call of `try_fast_path` step 5: the call
either raises or returns a message whose text content is `text` (a non-string
content attribute is coerced to `""`, as the source does). -/
inductive LLMOutcome where
  | raised
  | ok (text : String)

/-- Embeds the step-5 tail of `try_fast_path` (agent/fast_path.py), from the
model call to the returned value. -/
def fastPathHandleModelOutput (outcome : LLMOutcome) : Option String :=
  match outcome with
  | .raised => none
  | .ok text =>
      if text = "" then none
      else
        let viaPayload : Option String :=
          match maybeParseJson text with
          | some v =>
              if v.isDict then
                match validateFastPathPayload v with
                | some (answer, question) =>
                    let answer := strTrim answer
                    let question := normalizeFollowupQuestion question
                    let answer := strTrim (strReplaceChar answer '?' '.')
                    match question with
                    | some q => some (answer ++ "\n\n" ++ q)
                    | none => some answer
                | none => none
              else none
          | none => none
        match viaPayload with
        | some r => some r
        | none => fastPathCompactFallback text

/-- Embeds `try_fast_path` (agent/fast_path.py).  `userRole` and `history`
only shape the model-call input in the source, never the routing, and the
model call itself is represented by the explicit `outcome` parameter. -/
def tryFastPath (message : String) (metadata : PyVal) (_userRole : Option String)
    (_history : List (String × String)) (outcome : LLMOutcome) : Option String :=
  match heuristicFastReply message with
  | some r => some r
  | none =>
      if isCorpsMetierQuestion message then none
      else if shouldUseFullPipeline message metadata then none
      else if ¬isFastPathCandidate message then none
      else
        let msg := strTrim message
        if msg = "" then some fastEmptyReply
        else fastPathHandleModelOutput outcome

/-! ## agent/graph.py — tool routing -/

/-- Auxiliary scan for the substring test: try each suffix. -/
def strContainsAux (needle : List Char) : List Char → Bool
  | [] => needle.isEmpty
  | c :: rest => (stripLit needle (c :: rest)).isSome || strContainsAux needle rest

/-- Substring test (Python `needle in haystack`). -/
def strContains (haystack needle : String) : Bool :=
  strContainsAux needle.toList haystack.toList

/-- Modelled from the spec: `AVAILABLE_TOOLS` is imported from `agent.tools`
by `agent/graph.py` and `agent/runtime.py` but nowhere defined in the sources;
the spec fixes the registry as the closed set extract-document,
clean-line-items, calculate-totals, validate-document, lookup-record, to which
`agent/tools.py` adds the two retro-compatible aliases `parse_document` and
`validate_and_inconsistencies`. -/
def allowedToolNames : List String :=
  ["extract_pdf_tool", "parse_document", "clean_lines_tool", "calculate_totals_tool",
   "validate_devis_tool", "validate_and_inconsistencies", "supabase_lookup_tool"]

/-- A tool call as proposed to `_validate_tool_call` (fields still untyped). -/
structure PyToolCall where
  name : PyVal
  args : PyVal
  deriving DecidableEq

/-- A validated tool call: a registry name and an argument dict. -/
structure ToolCall where
  name : String
  args : PyVal
  deriving DecidableEq

/-- Embeds `_extract_first_file` (agent/graph.py). -/
def extractFirstFile (metadata : PyVal) : Option String :=
  if ¬metadata.isDict then none
  else
    match metadata.get "files" with
    | .plist (.pstr s :: _) => if strTrim s ≠ "" then some (strTrim s) else none
    | _ => none

/-- Embeds `_structured_from_metadata` (agent/graph.py): a structured payload
derived from a `structured_payload` dict or flat form fields (`pnone` plays
Python `None`). -/
def structuredFromMetadata (metadata : PyVal) : PyVal :=
  if ¬metadata.isDict then .pnone
  else if (metadata.get "structured_payload").isDict then
    let structured := metadata.get "structured_payload"
    if structured.hasKey "doc_type" then structured
    else structured.setKey "doc_type" (.pstr "quote")
  else
    let hasAny := ["client_name", "customer_name", "client_address", "client_contact",
                   "supplier_name", "supplier_address", "supplier_contact",
                   "line_items", "items", "doc_type", "docType"].any metadata.hasKey
    if ¬hasAny then .pnone
    else
      let docType :=
        let s := (pyStr (pyOr (metadata.get "doc_type")
                    (pyOr (metadata.get "docType") (.pstr "quote"))))
        if s = "" then "quote" else s
      let lineItems :=
        let li := pyOr (metadata.get "line_items") (pyOr (metadata.get "items") (.plist []))
        if li.isList then li else .plist []
      let structured : PyVal := .pdict
        [("doc_type", .pstr docType),
         ("customer", .pdict
           [("name", pyOr (metadata.get "client_name") (pyOr (metadata.get "customer_name") (.pstr ""))),
            ("address", pyOr (metadata.get "client_address") (.pstr "")),
            ("contact", pyOr (metadata.get "client_contact") (.pstr "")),
            ("siret", pyOr (metadata.get "client_siret") .pnone),
            ("tva_number", pyOr (metadata.get "client_tva") .pnone)]),
         ("supplier", .pdict
           [("name", pyOr (metadata.get "supplier_name") (.pstr "")),
            ("address", pyOr (metadata.get "supplier_address") (.pstr "")),
            ("contact", pyOr (metadata.get "supplier_contact") (.pstr "")),
            ("siret", pyOr (metadata.get "supplier_siret") .pnone),
            ("tva_number", pyOr (metadata.get "supplier_tva") .pnone)]),
         ("line_items", lineItems)]
      if (metadata.get "notes").truthy then structured.setKey "notes" (metadata.get "notes")
      else structured

/-- Embeds `_summarize_structured_payload` (agent/graph.py). -/
def summarizeStructuredPayload (payload : PyVal) : String :=
  if ¬payload.isDict then ""
  else
    let customer := if (payload.get "customer").isDict then payload.get "customer" else .pdict []
    let supplier := if (payload.get "supplier").isDict then payload.get "supplier" else .pdict []
    let items := if (payload.get "line_items").isList then (payload.get "line_items").asList else []
    let docType := pyStr (pyOr (payload.get "doc_type") (.pstr "quote"))
    let parts :=
      ["doc_type=" ++ docType,
       strTrim ("customer=" ++ pyStr (pyOr (customer.get "name") (.pstr ""))),
       strTrim ("supplier=" ++ pyStr (pyOr (supplier.get "name") (.pstr ""))),
       "line_items=" ++ toString items.length]
    String.intercalate ", " (parts.filter (fun p => p ≠ "" ∧ ¬strEndsWith p "="))

/-- Lookup-tool tail of `_heuristic_tool_choice` (agent/graph.py): requires a
lookup hint plus an action verb (or `historique`/`prefill`), infers the mode
from substrings of the lowercased message, and seeds the query with the
structured customer name. -/
def heuristicLookupChoice (msg : String) (structured : PyVal) : Option PyToolCall :=
  if reSearch Pat.lookupHint msg then
    if ¬(reSearch Pat.lookupAction msg ∨ strContains msg "historique" ∨ strContains msg "prefill") then
      none
    else
      let mode :=
        if strContains msg "materiau" ∨ strContains msg "matériau" then "materials"
        else if strContains msg "historique" then "history"
        else if strContains msg "prefill" ∨ strContains msg "pré-rempl" then "prefill"
        else "auto"
      let query : PyVal :=
        if structured.isDict then
          let customer := if (structured.get "customer").isDict then structured.get "customer"
                          else .pdict []
          pyOr (customer.get "name") .pnone
        else .pnone
      some ⟨.pstr "supabase_lookup_tool",
            .pdict [("query", query), ("mode", .pstr mode), ("limit", .pnum 8)]⟩
  else none

/-- Embeds `_heuristic_tool_choice` (agent/graph.py). -/
def heuristicToolChoice (message : String) (metadata : PyVal) (structured : PyVal) :
    Option PyToolCall :=
  let msg := strLower message
  let mode := if metadata.isDict then strLower (pyStr (pyOr (metadata.get "mode") (.pstr ""))) else ""
  let validateSection := if metadata.isDict then (metadata.get "validate_section").truthy else false
  let intentValidate :=
    mode = "validate" ∨ mode = "validation" ∨ validateSection ∨ reSearch Pat.validateHint msg
  if intentValidate ∧ structured.isDict ∧ structured.hasKey "line_items" then
    some ⟨.pstr "validate_devis_tool", .pdict [("payload", structured)]⟩
  else if structured.isDict ∧ reSearch Pat.totalsHint msg then
    some ⟨.pstr "calculate_totals_tool",
          .pdict [("lines", pyOr (structured.get "line_items") (.plist [])),
                  ("doc_type", pyOr (structured.get "doc_type") (.pstr "quote"))]⟩
  else if structured.isDict ∧ reSearch Pat.cleanHint msg then
    some ⟨.pstr "clean_lines_tool",
          .pdict [("lines", pyOr (structured.get "line_items") (.plist []))]⟩
  else
    match extractFirstFile metadata with
    | some filePath =>
        if reSearch Pat.analyzeHint msg then
          let docType := if structured.isDict then pyStr (pyOr (structured.get "doc_type") (.pstr "auto"))
                         else "auto"
          some ⟨.pstr "extract_pdf_tool",
                .pdict [("file_path", .pstr filePath), ("doc_type", .pstr docType)]⟩
        else heuristicLookupChoice msg structured
    | none => heuristicLookupChoice msg structured

/-- The argument dict as normalized at the top of `_validate_tool_call`
(`args` when it is a dict, else `{}`). -/
def normArgs (tc : PyToolCall) : PyVal :=
  if tc.args.isDict then tc.args else .pdict []

/-- First required-argument block of `_validate_tool_call` (agent/graph.py):
backfill `payload` for `validate_devis_tool` from the structured payload, or
discard. -/
def validateArgsPayload (name : String) (args structured : PyVal) : Option PyVal :=
  if name = "validate_devis_tool" ∧ ¬(args.get "payload").isDict then
    if structured.isDict then some (args.setKey "payload" structured) else none
  else some args

/-- Second block: backfill `lines` for `calculate_totals_tool` /
`clean_lines_tool` from `structured_payload.line_items`, or discard. -/
def validateArgsLines (name : String) (args structured : PyVal) : Option PyVal :=
  if (name = "calculate_totals_tool" ∨ name = "clean_lines_tool")
      ∧ ¬(args.get "lines").isList then
    if structured.isDict then
      some (args.setKey "lines" (pyOr (structured.get "line_items") (.plist [])))
    else none
  else some args

/-- Third block: backfill `file_path` for `extract_pdf_tool` from the metadata
file list, or discard. -/
def validateArgsFilePath (name : String) (args metadata : PyVal) : Option PyVal :=
  if name = "extract_pdf_tool" ∧ ¬(args.get "file_path").isStr then
    match extractFirstFile metadata with
    | some filePath => some (args.setKey "file_path" (.pstr filePath))
    | none => none
  else some args

/-- Fourth block: `supabase_lookup_tool` with an empty or missing query is
discarded unless `mode` is exactly `"prefill"` (and then the query is pinned
to `None`). -/
def validateArgsQuery (name : String) (args : PyVal) : Option PyVal :=
  if name = "supabase_lookup_tool" then
    let query := args.get "query"
    let mode := pyStr (pyOr (args.get "mode") (.pstr "auto"))
    if query = .pnone ∨ (query.isStr ∧ strTrim query.asStr = "") then
      if mode ≠ "prefill" then none
      else some (args.setKey "query" .pnone)
    else some args
  else some args

/-- Embeds `_validate_tool_call` (agent/graph.py): checks the registry, then
runs the four required-argument blocks in the source's order; any block may
discard the call. -/
def validateToolCall (toolCall : Option PyToolCall) (metadata structured : PyVal) :
    Option ToolCall :=
  match toolCall with
  | none => none
  | some tc =>
      match tc.name with
      | .pstr name =>
          if name ∈ allowedToolNames then
            ((((validateArgsPayload name (normArgs tc) structured).bind
                (fun args => validateArgsLines name args structured)).bind
                (fun args => validateArgsFilePath name args metadata)).bind
                (fun args => validateArgsQuery name args)).map
              (fun args => ⟨name, args⟩)
          else none
      | _ => none

/-- Embeds the tool-call decision of `router_node` (agent/graph.py):
heuristics validated first; when they produce nothing and the trade router
did not force the `corps_metier` corpus, the routing model's parsed JSON
answer (`routerParsed`, `none` on call/parse failure) may suggest a tool,
which passes through the same validator. -/
def routerToolCall (message : String) (metadataState structuredState : PyVal)
    (routerParsed : Option PyVal) : Option ToolCall :=
  let metadata := if metadataState.isDict then metadataState else .pdict []
  let structured :=
    if structuredState = .pnone then structuredFromMetadata metadata else structuredState
  let toolCall := validateToolCall (heuristicToolChoice message metadata structured)
                    metadata structured
  let ragFilterCorps := isCorpsMetierQuestion message
  if toolCall.isNone ∧ ¬ragFilterCorps then
    match routerParsed with
    | some parsed =>
        if parsed.isDict then
          let suggested := parsed.get "tool"
          if suggested.isDict then
            validateToolCall
              (some ⟨suggested.get "name", pyOr (suggested.get "args") (.pdict [])⟩)
              metadata structured
          else none
        else toolCall
    | none => toolCall
  else toolCall

/-! ## agent/graph.py — `_build_messages_for_synthesis` -/

/-- A chat message of the synthesizer prompt. -/
inductive Msg where
  | system (content : String)
  | human (content : String)
  | ai (content : String)
  deriving DecidableEq

/-- Placeholder for the text of `SYNTHESIZER_SYSTEM_PROMPT` (agent/prompts.py):
no checked claim depends on the prompt wording. -/
def synthesizerSystemPrompt : String := "SYNTHESIZER_SYSTEM_PROMPT"

/-- Compaction of the tool result for the synthesizer context
(`json.dumps` then truncation to 1200 characters plus an ellipsis). -/
def compactToolResult (toolResult : PyVal) : String :=
  let compact := jsonDumps toolResult
  if compact.length > 1200 then String.mk (compact.toList.take 1200) ++ "…" else compact

/-- One RAG snippet line: kept only for a string content with non-blank text,
newlines flattened, truncated to 350 characters plus an ellipsis. -/
def ragSnippet (doc : PyVal) : Option String :=
  match doc.get "content" with
  | .pstr content =>
      if strTrim content = "" then none
      else
        let snippet := strReplaceChar (strTrim content) '\n' ' '
        let snippet := if snippet.length > 350 then String.mk (snippet.toList.take 350) ++ "…" else snippet
        some ("- " ++ snippet)
  | _ => none

/-- The last `n` elements of a list (`xs[-n:]`). -/
def takeLast {α : Type} (n : Nat) (xs : List α) : List α := xs.drop (xs.length - n)

/-- One history item mapped to a prompt message, skipped when it is not a
dict or its content is not a non-blank string. -/
def historyMsg (item : PyVal) : Option Msg :=
  if ¬item.isDict then none
  else
    match item.get "content" with
    | .pstr content =>
        if strTrim content = "" then none
        else if item.get "role" = .pstr "assistant" then some (.ai content)
        else if item.get "role" = .pstr "system" then some (.system content)
        else some (.human content)
    | _ => none

/-- The pipeline state fields read by `_build_messages_for_synthesis`. -/
structure SynthState where
  message : String
  history : PyVal
  structuredPayload : PyVal
  toolCall : Option ToolCall
  toolResult : PyVal
  ragContext : PyVal

/-- The system context block of the synthesizer prompt: structured-payload
summary, compacted tool result, then RAG snippets, each line optional. -/
def synthContextLines (st : SynthState) : List String :=
  let structuredSummary := summarizeStructuredPayload st.structuredPayload
  let ragContext := if st.ragContext.isList then st.ragContext.asList else []
  (if structuredSummary ≠ "" then ["Contexte devis/facture: " ++ structuredSummary] else [])
  ++ (match st.toolCall with
      | some tc =>
          if st.toolResult ≠ .pnone then
            ["tool=" ++ tc.name ++ ": " ++ compactToolResult st.toolResult]
          else []
      | none => [])
  ++ (if ¬ragContext.isEmpty then
        let snippets := (ragContext.take 4).filterMap ragSnippet
        if ¬snippets.isEmpty then ["Extraits pertinents:\n" ++ String.intercalate "\n" snippets]
        else []
      else [])

/-- Embeds `_build_messages_for_synthesis` (agent/graph.py). -/
def buildMessagesForSynthesis (st : SynthState) : List Msg :=
  let history := if st.history.isList then st.history.asList else []
  let contextLines := synthContextLines st
  [Msg.system synthesizerSystemPrompt]
  ++ (if ¬contextLines.isEmpty then [Msg.system (String.intercalate "\n" contextLines)] else [])
  ++ (takeLast 6 history).filterMap historyMsg
  ++ [Msg.human st.message]

/-! ## agent/runtime.py — missing-field computation of `business_tools_node` -/

/-- Embeds the `missing_fields` block of `business_tools_node`
(agent/runtime.py, executed when the structured payload dict is non-empty):
party fields, supplier registration numbers, document number/date, payment
terms, the two invoice-only clauses, and the absence of line items, in the
source's append order. -/
def businessMissingFields (payload : PyVal) : List String :=
  let customer := pyOr (payload.get "customer") (.pdict [])
  let supplier := pyOr (payload.get "supplier") (.pdict [])
  (if ¬(customer.get "name").truthy then ["customer.name"] else [])
  ++ (if ¬(customer.get "address").truthy then ["customer.address"] else [])
  ++ (if ¬(customer.get "contact").truthy then ["customer.contact"] else [])
  ++ (if ¬(supplier.get "name").truthy then ["supplier.name"] else [])
  ++ (if ¬(supplier.get "address").truthy then ["supplier.address"] else [])
  ++ (if ¬(supplier.get "contact").truthy then ["supplier.contact"] else [])
  ++ (if ¬(supplier.get "siret").truthy then ["supplier.siret"] else [])
  ++ (if ¬(supplier.get "tva_number").truthy then ["supplier.tva_number"] else [])
  ++ (if ¬(payload.get "number").truthy then ["number"] else [])
  ++ (if ¬(payload.get "date").truthy then ["date"] else [])
  ++ (if ¬(payload.get "payment_terms").truthy then ["payment_terms"] else [])
  ++ (if payload.get "doc_type" = .pstr "invoice" then
        (if ¬(payload.get "penalties_late_payment").truthy then ["penalties_late_payment"] else [])
        ++ (if ¬(payload.get "professional_liability").truthy then ["professional_liability"] else [])
      else [])
  ++ (if ¬(payload.get "line_items").truthy then ["line_items"] else [])

/-! ## agent/cache.py

The backing Redis store is modelled as a map from full key strings to the
stored payload value (`set` serializes with `json.dumps` and `get` parses with
`json.loads`; the Python `json` module round-trips the `{reply, meta}` payload
dicts involved, so the store holds the payload value directly). -/

/-- Embeds `normalize_question` (agent/cache.py): lowercase, strip accents,
strip, collapse whitespace. -/
def normalizeQuestion (text : String) : String :=
  if text = "" then ""
  else collapseWs (strTrim (strLower (stripAccents text)))

/-- Embeds the `CacheEntry` dataclass (agent/cache.py); `meta` is a dict or
`None` (`pnone`). -/
structure CacheEntry where
  reply : String
  meta : PyVal := .pnone
  deriving DecidableEq

/-- The key-value map standing for the connected Redis database. -/
def CacheStore := String → Option PyVal

/-- Embeds `RedisChatCache._key` with the default `nextmind:chat:` prefix. -/
def cacheKey (normalizedQuestion : String) : String :=
  "nextmind:chat:" ++ normalizedQuestion

/-- Embeds `RedisChatCache.set` (agent/cache.py) on an enabled cache: refuses
an empty key or an empty reply, otherwise stores `{"reply": …, "meta": … or {}}`
under the prefixed key.  Returns the updated store and the success flag. -/
def cacheSet (store : CacheStore) (normalizedQuestion : String) (entry : CacheEntry) :
    CacheStore × Bool :=
  if normalizedQuestion = "" ∨ entry.reply = "" then (store, false)
  else
    let payload : PyVal := .pdict [("reply", .pstr entry.reply), ("meta", pyOr entry.meta (.pdict []))]
    (fun k => if k = cacheKey normalizedQuestion then some payload else store k, true)

/-- Embeds `RedisChatCache.get` (agent/cache.py) on an enabled cache: a hit
must be a dict whose `reply` is a string with non-whitespace content; `meta`
is kept only when it is a dict. -/
def cacheGet (store : CacheStore) (normalizedQuestion : String) : Option CacheEntry :=
  if normalizedQuestion = "" then none
  else
    match store (cacheKey normalizedQuestion) with
    | none => none
    | some payload =>
        if ¬payload.isDict then none
        else
          match payload.get "reply" with
          | .pstr reply =>
              if strTrim reply = "" then none
              else some ⟨reply, if (payload.get "meta").isDict then payload.get "meta" else .pnone⟩
          | _ => none

/-! ## api/chat.py — cacheability and the cache-write control flow -/

/-- Embeds `_is_cacheable` (api/chat.py): cache only stateless questions. -/
def isCacheable (metadata : PyVal) (history : List PyVal) : Bool :=
  if ¬history.isEmpty then false
  else if ¬metadata.isDict ∨ metadata = .pdict [] then true
  else if (metadata.get "structured_payload").isDict then false
  else if ["line_items", "items", "client_name", "customer_name", "files",
           "validate_section"].any metadata.hasKey then false
  else true

/-- Keyword list of `_is_context_dependent` (api/chat.py), verbatim from the
source (including its mojibake encodings of accented words). -/
def contextKeywords : List String :=
  ["aussi", "et", "en plus", "pareil", "m√™me chose", "meme chose",
   "combien en tout", "total", "au final", "pour √ßa", "pour ca", "pour cela",
   "dans ce cas", "et pour", "et du coup", "pour le plafond", "pour le mur",
   "pour la toiture", "il", "elle", "√ßa", "ca", "cela", "eux"]

/-- Embeds `_is_context_dependent` (api/chat.py). -/
def isContextDependent (query : String) (history : List PyVal) : Bool :=
  if history.isEmpty then false
  else
    let q := strLower (strTrim query)
    if q = "" then false
    else if q.length < 40 ∧ contextKeywords.any (fun k => strContains q k) then true
    else strStartsWith q "et " ∨ strStartsWith q "et pour"

/-- The request fields of `ChatInput` (api/chat.py) that the cache-write
control flow reads. -/
structure ChatRequest where
  message : String
  history : List PyVal
  metadata : PyVal
  conversationId : Option String
  deriving DecidableEq

/-- Embeds the cache-write control flow of `handle_chat_non_stream`
(api/chat.py): whether `cache.set` is invoked while handling the request.
External collaborators enter as parameters: `storeEnabled` and
`storedHistory` for the conversation store, `cacheEnabled` and the `hit`
returned by `cache.get`, the fast-path result `fast`, and the synthesized
`reply` of the full pipeline. -/
def chatCacheSetInvoked (req : ChatRequest) (storeEnabled : Bool)
    (storedHistory : List PyVal) (cacheEnabled : Bool) (hit : Option CacheEntry)
    (fast : Option String) (reply : String) : Bool :=
  let historyDump := req.history
  let stored :=
    if storeEnabled ∧ req.conversationId.isSome ∧ historyDump.isEmpty then storedHistory
    else []
  let historyDump :=
    if ¬stored.isEmpty ∧ isContextDependent req.message stored then stored else historyDump
  let cacheable := isCacheable req.metadata historyDump ∧ stored.isEmpty
  let fastTruthy : Bool := match fast with
    | some f => f ≠ ""
    | none => false
  if cacheEnabled ∧ cacheable ∧ hit.isSome then false
  else if fastTruthy then cacheEnabled ∧ cacheable
  else cacheEnabled ∧ cacheable ∧ reply ≠ ""

/-! # Theorems -/

/-! ## C1 — totals of `calculate_totals_tool` -/

theorem calcTotalsGo_ht (dvr : Option ℚ) (idx : Nat) (lines : List PyVal) :
    (calcTotalsGo dvr idx lines).1 = (lines.map lineTotalHT).sum := by
  induction lines generalizing idx with
  | nil => simp [calcTotalsGo]
  | cons l rest ih => simp [calcTotalsGo, ih]

theorem calcTotalsGo_tva (dvr : Option ℚ) (idx : Nat) (lines : List PyVal) :
    (calcTotalsGo dvr idx lines).2.1 = (lines.map (fun l => lineTotalTVA l dvr)).sum := by
  induction lines generalizing idx with
  | nil => simp [calcTotalsGo]
  | cons l rest ih => simp [calcTotalsGo, ih]

/-- The Scenario B line item
`{description: "Peinture", quantity: 10, unit_price_ht: 20, vat_rate: 20, discount_rate: 0}`. -/
def peintureLine : PyVal :=
  .pdict [("description", .pstr "Peinture"), ("quantity", .pnum 10),
          ("unit_price_ht", .pnum 20), ("vat_rate", .pnum 20), ("discount_rate", .pnum 0)]

/-- **C1** — for every list of line items, `calculate_totals_tool` returns
`total_ht = Σ quantity·unit_price_ht·(1 − discount_rate/100)` over the lines,
`total_tva = Σ line_total_ht·vat_rate/100`, and `total_ttc = total_ht + total_tva`
(the per-line values are `lineTotalHT`/`lineTotalTVA`, read off the line dict
exactly as the source does); in particular on the single Scenario B line it
returns `total_ht = 200`, `total_tva = 40`, `total_ttc = 240`. -/
theorem calculateTotals_correct :
    (∀ (lines : List PyVal) (dvr : Option ℚ) (dt : Option String),
        (calculateTotalsTool lines dvr dt).totalHT = (lines.map lineTotalHT).sum
        ∧ (calculateTotalsTool lines dvr dt).totalTVA
            = (lines.map (fun l => lineTotalTVA l dvr)).sum
        ∧ (calculateTotalsTool lines dvr dt).totalTTC
            = (calculateTotalsTool lines dvr dt).totalHT
              + (calculateTotalsTool lines dvr dt).totalTVA)
    ∧ (calculateTotalsTool [peintureLine] (some 20) none).totalHT = 200
    ∧ (calculateTotalsTool [peintureLine] (some 20) none).totalTVA = 40
    ∧ (calculateTotalsTool [peintureLine] (some 20) none).totalTTC = 240 := by
  refine ⟨fun lines dvr dt => ⟨?_, ?_, ?_⟩, ?_, ?_, ?_⟩
  · simp [calculateTotalsTool, calcTotalsGo_ht]
  · simp [calculateTotalsTool, calcTotalsGo_tva]
  · simp [calculateTotalsTool]
  all_goals
    simp [calculateTotalsTool, calcTotalsGo, peintureLine, lineTotalHT, lineTotalTVA,
          lineQtyRaw, linePriceRaw, lineVatRaw, lineDiscountRaw, normalizeDecimal,
          PyVal.get, PyVal.getD, PyVal.pyOr, PyVal.truthy, List.find?]
    norm_num

/-! ## C10 — `clean_lines_tool` output bounds and warnings -/

/-- What `clean_lines_tool` keeps of one input line (`none` when the line is
dropped for a blank description); independent of position and of the
already-seen descriptions. -/
def cleanKept (dvr : Option ℚ) (l : PyVal) : Option CleanedLine :=
  (cleanOneLineD dvr [] 0 l).1

theorem cleanOne_fst (dvr : Option ℚ) (seen : List String) (idx : Nat) (l : PyVal) :
    (cleanOneLineD dvr seen idx l).1 = cleanKept dvr l := by
  by_cases h : lineDescRaw l = "" <;> simp [cleanOneLineD, cleanKept, h]

theorem cleanLinesGo_fst (dvr : Option ℚ) (lines : List PyVal) :
    ∀ seen idx, (cleanLinesGo dvr seen idx lines).1 = lines.filterMap (cleanKept dvr) := by
  induction lines with
  | nil => intro seen idx; simp [cleanLinesGo]
  | cons l rest ih =>
      intro seen idx
      cases hk : cleanKept dvr l <;>
        simp [cleanLinesGo, cleanOne_fst, hk, List.filterMap_cons, ih]

theorem cleanKept_fields (dvr : Option ℚ) (l : PyVal) (c : CleanedLine)
    (h : cleanKept dvr l = some c) :
    c.description ≠ "" ∧ 0 ≤ c.quantity ∧ 0 ≤ c.unitPriceHT ∧ 0 ≤ c.vatRate := by
  by_cases hd : lineDescRaw l = ""
  · simp [cleanKept, cleanOneLineD, hd] at h
  · simp [cleanKept, cleanOneLineD, hd] at h
    rw [← h]
    exact ⟨hd, abs_nonneg _, abs_nonneg _, abs_nonneg _⟩

theorem cleanOne_snd_blank (dvr : Option ℚ) (seen : List String) (idx : Nat) (l : PyVal)
    (h : lineDescRaw l = "") :
    (cleanOneLineD dvr seen idx l).2 = [⟨idx, "description_vide", none⟩] := by
  simp [cleanOneLineD, h]

theorem cleanOne_snd_negQty (dvr : Option ℚ) (seen : List String) (idx : Nat) (l : PyVal)
    (hd : lineDescRaw l ≠ "") (hq : lineQtyRaw l < 0) :
    (⟨idx, "negative_quantity", some (.pnum (lineQtyRaw l))⟩ : CleanWarning)
      ∈ (cleanOneLineD dvr seen idx l).2 := by
  simp only [cleanOneLineD, if_neg hd, List.mem_append]
  refine Or.inr (Or.inl (Or.inl ?_))
  rw [if_pos hq]
  exact List.mem_singleton_self _

theorem cleanOne_snd_negPrice (dvr : Option ℚ) (seen : List String) (idx : Nat) (l : PyVal)
    (hd : lineDescRaw l ≠ "") (hp : linePriceRaw l < 0) :
    (⟨idx, "negative_price", some (.pnum (linePriceRaw l))⟩ : CleanWarning)
      ∈ (cleanOneLineD dvr seen idx l).2 := by
  simp only [cleanOneLineD, if_neg hd, List.mem_append]
  refine Or.inr (Or.inl (Or.inr ?_))
  rw [if_pos hp]
  exact List.mem_singleton_self _

theorem cleanOne_snd_negVat (dvr : Option ℚ) (seen : List String) (idx : Nat) (l : PyVal)
    (hd : lineDescRaw l ≠ "") (hv : lineVatRaw l dvr < 0) :
    (⟨idx, "negative_vat_rate", some (.pnum (lineVatRaw l dvr))⟩ : CleanWarning)
      ∈ (cleanOneLineD dvr seen idx l).2 := by
  simp only [cleanOneLineD, if_neg hd, List.mem_append]
  refine Or.inr (Or.inr ?_)
  rw [if_pos hv]
  exact List.mem_singleton_self _

theorem cleanLinesGo_snd_mem (dvr : Option ℚ) (lines : List PyVal) :
    ∀ seen idx i (hi : i < lines.length) (w : CleanWarning),
      (∀ seen', w ∈ (cleanOneLineD dvr seen' (idx + i) (lines.get ⟨i, hi⟩)).2) →
      w ∈ (cleanLinesGo dvr seen idx lines).2 := by
  induction lines with
  | nil => intro seen idx i hi; exact absurd hi (by simp)
  | cons l rest ih =>
      intro seen idx i hi w hw
      match i with
      | 0 =>
          have := hw seen
          simp [cleanLinesGo]
          exact Or.inl (by simpa using this)
      | j + 1 =>
          have hj : j < rest.length := Nat.lt_of_succ_lt_succ hi
          have : w ∈ (cleanLinesGo dvr
              (if lineDescRaw l = "" then seen else strLower (lineDescRaw l) :: seen)
              (idx + 1) rest).2 := by
            refine ih _ (idx + 1) j hj w ?_
            intro seen'
            have h := hw seen'
            rw [show idx + (j + 1) = idx + 1 + j from by omega] at h
            simpa using h
          simp [cleanLinesGo]
          exact Or.inr this

theorem cleanKept_of_desc (dvr : Option ℚ) (l : PyVal) (hd : lineDescRaw l ≠ "") :
    ∃ c, cleanKept dvr l = some c ∧ c.quantity = |lineQtyRaw l|
      ∧ c.unitPriceHT = |linePriceRaw l| ∧ c.vatRate = |lineVatRaw l dvr| := by
  simp only [cleanKept, cleanOneLineD]
  rw [if_neg hd]
  exact ⟨_, rfl, rfl, rfl, rfl⟩

/-- **C10** — every line kept by `clean_lines_tool` has a non-empty
description and non-negative quantity, unit price and VAT rate; the kept lines
are exactly the per-line cleanings of the inputs in order (so blank-description
inputs are omitted); a blank-description input at index `i` yields a
`description_vide` warning at `i` and no output line; and a negative quantity,
unit price or VAT rate on a kept line yields the corresponding warning while
the output carries the absolute value. -/
theorem cleanLines_bounds_warnings :
    (∀ (lines : List PyVal) (dvr : Option ℚ), ∀ c ∈ (cleanLinesTool lines dvr).1,
        c.description ≠ "" ∧ 0 ≤ c.quantity ∧ 0 ≤ c.unitPriceHT ∧ 0 ≤ c.vatRate)
    ∧ (∀ (lines : List PyVal) (dvr : Option ℚ),
        (cleanLinesTool lines dvr).1 = lines.filterMap (cleanKept dvr))
    ∧ (∀ (lines : List PyVal) (dvr : Option ℚ) (i : Nat) (hi : i < lines.length),
        lineDescRaw (lines.get ⟨i, hi⟩) = "" →
          (⟨i, "description_vide", none⟩ : CleanWarning) ∈ (cleanLinesTool lines dvr).2
          ∧ cleanKept dvr (lines.get ⟨i, hi⟩) = none)
    ∧ (∀ (lines : List PyVal) (dvr : Option ℚ) (i : Nat) (hi : i < lines.length),
        lineDescRaw (lines.get ⟨i, hi⟩) ≠ "" →
          (lineQtyRaw (lines.get ⟨i, hi⟩) < 0 →
            (⟨i, "negative_quantity", some (.pnum (lineQtyRaw (lines.get ⟨i, hi⟩)))⟩ : CleanWarning)
              ∈ (cleanLinesTool lines dvr).2)
          ∧ (linePriceRaw (lines.get ⟨i, hi⟩) < 0 →
            (⟨i, "negative_price", some (.pnum (linePriceRaw (lines.get ⟨i, hi⟩)))⟩ : CleanWarning)
              ∈ (cleanLinesTool lines dvr).2)
          ∧ (lineVatRaw (lines.get ⟨i, hi⟩) dvr < 0 →
            (⟨i, "negative_vat_rate", some (.pnum (lineVatRaw (lines.get ⟨i, hi⟩) dvr))⟩ : CleanWarning)
              ∈ (cleanLinesTool lines dvr).2)
          ∧ ∃ c, cleanKept dvr (lines.get ⟨i, hi⟩) = some c
              ∧ c.quantity = |lineQtyRaw (lines.get ⟨i, hi⟩)|
              ∧ c.unitPriceHT = |linePriceRaw (lines.get ⟨i, hi⟩)|
              ∧ c.vatRate = |lineVatRaw (lines.get ⟨i, hi⟩) dvr|) := by
  refine ⟨?_, ?_, ?_, ?_⟩
  · intro lines dvr c hc
    rw [show (cleanLinesTool lines dvr).1 = lines.filterMap (cleanKept dvr) from
          cleanLinesGo_fst dvr lines [] 0] at hc
    obtain ⟨l, _, hk⟩ := List.mem_filterMap.mp hc
    exact cleanKept_fields dvr l c hk
  · intro lines dvr
    exact cleanLinesGo_fst dvr lines [] 0
  · intro lines dvr i hi hblank
    refine ⟨cleanLinesGo_snd_mem dvr lines [] 0 i (by simpa using hi) _ ?_, ?_⟩
    · intro seen'
      rw [cleanOne_snd_blank dvr seen' (0 + i) _ hblank]
      simp
    · simp only [List.get_eq_getElem] at hblank
      simp [cleanKept, cleanOneLineD, hblank]
  · intro lines dvr i hi hd
    refine ⟨fun hq => cleanLinesGo_snd_mem dvr lines [] 0 i (by simpa using hi) _
              (fun seen' => by simpa using cleanOne_snd_negQty dvr seen' (0 + i) _ hd hq),
            fun hp => cleanLinesGo_snd_mem dvr lines [] 0 i (by simpa using hi) _
              (fun seen' => by simpa using cleanOne_snd_negPrice dvr seen' (0 + i) _ hd hp),
            fun hv => cleanLinesGo_snd_mem dvr lines [] 0 i (by simpa using hi) _
              (fun seen' => by simpa using cleanOne_snd_negVat dvr seen' (0 + i) _ hd hv),
            ?_⟩
    exact cleanKept_of_desc dvr _ hd

/-- Sample input for the `clean_lines_tool` witness: one valid line, one
blank-description line, one line with a negative quantity. -/
def witnessCleanLines : List PyVal :=
  [peintureLine, .pdict [("description", .pstr "  ")],
   .pdict [("description", .pstr "X"), ("quantity", .pnum (-2))]]

/-- Witness for `cleanLines_bounds_warnings` at `witnessCleanLines`. -/
theorem cleanLines_bounds_warnings_witness :
    ((⟨1, "description_vide", none⟩ : CleanWarning)
        ∈ (cleanLinesTool witnessCleanLines (some 20)).2)
    ∧ ((⟨2, "negative_quantity",
          some (.pnum (lineQtyRaw (witnessCleanLines.get ⟨2, by decide⟩)))⟩ : CleanWarning)
        ∈ (cleanLinesTool witnessCleanLines (some 20)).2) := by
  refine ⟨(cleanLines_bounds_warnings.2.2.1 witnessCleanLines (some 20) 1
            (by decide) (by decide)).1,
          (cleanLines_bounds_warnings.2.2.2 witnessCleanLines (some 20) 2
            (by decide) (by decide)).1 (by decide)⟩

/-! ## C2 — the router returns at most one tool call, from the registry -/

theorem validateToolCall_name_mem (t : Option PyToolCall) (md st : PyVal) (out : ToolCall)
    (h : validateToolCall t md st = some out) : out.name ∈ allowedToolNames := by
  cases t with
  | none => simp [validateToolCall] at h
  | some tc =>
      cases hn : tc.name with
      | pstr name =>
          by_cases hm : name ∈ allowedToolNames
          · simp only [validateToolCall, hn, hm, if_true, Option.map_eq_some'] at h
            obtain ⟨args, -, hfin⟩ := h
            rw [← hfin]
            exact hm
          · simp [validateToolCall, hn, hm] at h
      | pnone => simp [validateToolCall, hn] at h
      | pnum q => simp [validateToolCall, hn] at h
      | pbool b => simp [validateToolCall, hn] at h
      | plist l => simp [validateToolCall, hn] at h
      | pdict d => simp [validateToolCall, hn] at h

theorem routerToolCall_eq_some (message : String) (mdS stS : PyVal) (parsed : Option PyVal)
    (tc : ToolCall) (h : routerToolCall message mdS stS parsed = some tc) :
    ∃ t md st, validateToolCall t md st = some tc := by
  simp only [routerToolCall] at h
  repeat' split at h
  all_goals first
    | exact ⟨_, _, _, h⟩
    | simp at h

/-- **C2** — for every input message, metadata, structured payload and routing
model outcome, the router's tool-call decision is either `none` or a single
`{name, args}` whose name belongs to the fixed tool registry; it can never
carry more than one tool call (the decision is a single optional value by
construction). -/
theorem router_at_most_one_tool (message : String) (metadataState structuredState : PyVal)
    (routerParsed : Option PyVal) :
    routerToolCall message metadataState structuredState routerParsed = none
    ∨ ∃ tc, routerToolCall message metadataState structuredState routerParsed = some tc
        ∧ tc.name ∈ allowedToolNames := by
  cases hr : routerToolCall message metadataState structuredState routerParsed with
  | none => exact Or.inl rfl
  | some tc =>
      refine Or.inr ⟨tc, rfl, ?_⟩
      obtain ⟨t, md, st, hv⟩ := routerToolCall_eq_some _ _ _ _ _ hr
      exact validateToolCall_name_mem t md st tc hv

/-! ## C7 — argument validation: backfill or discard -/

theorem find?_map_update (kvs : List (String × PyVal)) (k : String) (v : PyVal)
    (h : kvs.any (fun p => p.1 = k) = true) :
    (((kvs.map (fun p => if p.1 = k then (p.1, v) else p)).find?
        (fun p => p.1 = k)).elim PyVal.pnone (·.2)) = v := by
  induction kvs with
  | nil => simp at h
  | cons p rest ih =>
      by_cases hp : p.1 = k
      · simp [List.find?, hp]
      · have h2 : rest.any (fun p => p.1 = k) = true := by
          simpa [List.any_cons, hp] using h
        simpa [List.find?, hp] using ih h2

theorem find?_append_new (kvs : List (String × PyVal)) (k : String) (v : PyVal)
    (h : kvs.any (fun p => p.1 = k) = false) :
    (((kvs ++ [(k, v)]).find? (fun p => p.1 = k)).elim PyVal.pnone (·.2)) = v := by
  induction kvs with
  | nil => simp [List.find?]
  | cons p rest ih =>
      have hp : ¬(p.1 = k) := by
        intro hc; simp [List.any_cons, hc] at h
      have h2 : rest.any (fun p => p.1 = k) = false := by
        simpa [List.any_cons, hp] using h
      simpa [List.find?, hp] using ih h2

theorem get_setKey_self (d : PyVal) (hd : d.isDict = true) (k : String) (v : PyVal) :
    (d.setKey k v).get k = v := by
  cases d with
  | pdict kvs =>
      by_cases ha : kvs.any (fun p => p.1 = k)
      · simpa [PyVal.setKey, PyVal.get, ha] using find?_map_update kvs k v ha
      · have ha2 : kvs.any (fun p => p.1 = k) = false := by
          simp only [Bool.not_eq_true] at ha; exact ha
        simpa [PyVal.setKey, PyVal.get, ha2] using find?_append_new kvs k v ha2
  | pnone => simp [PyVal.isDict] at hd
  | pstr s => simp [PyVal.isDict] at hd
  | pnum q => simp [PyVal.isDict] at hd
  | pbool b => simp [PyVal.isDict] at hd
  | plist l => simp [PyVal.isDict] at hd

theorem validateArgsPayload_skip (name : String) (h : name ≠ "validate_devis_tool")
    (args st : PyVal) : validateArgsPayload name args st = some args := by
  simp [validateArgsPayload, h]

theorem validateArgsLines_skip (name : String) (h1 : name ≠ "calculate_totals_tool")
    (h2 : name ≠ "clean_lines_tool") (args st : PyVal) :
    validateArgsLines name args st = some args := by
  simp [validateArgsLines, h1, h2]

theorem validateArgsFilePath_skip (name : String) (h : name ≠ "extract_pdf_tool")
    (args md : PyVal) : validateArgsFilePath name args md = some args := by
  simp [validateArgsFilePath, h]

theorem validateArgsQuery_skip (name : String) (h : name ≠ "supabase_lookup_tool")
    (args : PyVal) : validateArgsQuery name args = some args := by
  simp [validateArgsQuery, h]

theorem normArgs_isDict (tc : PyToolCall) : (normArgs tc).isDict = true := by
  cases h : tc.args <;> simp [normArgs, h, PyVal.isDict]

theorem validateArgsPayload_sound (args st a : PyVal) (hargs : args.isDict = true)
    (h : validateArgsPayload "validate_devis_tool" args st = some a) :
    (a.get "payload").isDict = true := by
  simp only [validateArgsPayload] at h
  split at h
  · split at h
    · next hst =>
        cases h
        rw [get_setKey_self args hargs]
        exact hst
    · cases h
  · next hc =>
      cases h
      simpa using hc

theorem validateArgsLines_sound (name : String) (args st a : PyVal) (hargs : args.isDict = true)
    (hname : name = "calculate_totals_tool" ∨ name = "clean_lines_tool")
    (h : validateArgsLines name args st = some a) :
    (a.get "lines").isList = true ∨ a.get "lines" = pyOr (st.get "line_items") (.plist []) := by
  simp only [validateArgsLines] at h
  split at h
  · split at h
    · cases h
      exact Or.inr (get_setKey_self args hargs _ _)
    · cases h
  · next hc =>
      cases h
      left
      by_contra hl
      exact hc ⟨hname, by simpa using hl⟩

theorem validateArgsFilePath_sound (args md a : PyVal) (hargs : args.isDict = true)
    (h : validateArgsFilePath "extract_pdf_tool" args md = some a) :
    (a.get "file_path").isStr = true := by
  simp only [validateArgsFilePath] at h
  split at h
  · split at h
    · cases h
      rw [get_setKey_self args hargs]
      rfl
    · cases h
  · next hc =>
      cases h
      simpa using hc

theorem validateArgsQuery_sound (args a : PyVal) (hargs : args.isDict = true)
    (h : validateArgsQuery "supabase_lookup_tool" args = some a) :
    ¬((a.get "query").isStr = true ∧ strTrim (a.get "query").asStr = "") := by
  simp only [validateArgsQuery] at h
  split at h
  · split at h
    · split at h
      · cases h
      · cases h
        rw [get_setKey_self args hargs]
        simp [PyVal.isStr]
    · next hq =>
        cases h
        intro hc
        exact hq (Or.inr hc)
  · next hc => exact absurd trivial hc

/-- **C7** — tool argument validation backfills missing required arguments
from the structured payload (the `payload` of `validate_devis_tool`, the
`lines` of `calculate_totals_tool`/`clean_lines_tool` from
`structured_payload.line_items`, the `file_path` of `extract_pdf_tool` from
the metadata file list); whenever backfill is impossible the call is discarded
(`none`), so no tool call survives with its required argument missing; and
`supabase_lookup_tool` with an empty or missing query is discarded unless its
mode is exactly `"prefill"` (in which case the query is pinned to `None`). -/
theorem validate_backfill_or_discard :
    (∀ (tc : PyToolCall) (md st : PyVal),
        tc.name = .pstr "validate_devis_tool" →
        ((normArgs tc).get "payload").isDict = false →
          (st.isDict = false → validateToolCall (some tc) md st = none)
          ∧ (st.isDict = true → ∃ out, validateToolCall (some tc) md st = some out
              ∧ out.name = "validate_devis_tool" ∧ out.args.get "payload" = st))
    ∧ (∀ (tc : PyToolCall) (md st : PyVal) (name : String),
        (name = "calculate_totals_tool" ∨ name = "clean_lines_tool") →
        tc.name = .pstr name →
        ((normArgs tc).get "lines").isList = false →
          (st.isDict = false → validateToolCall (some tc) md st = none)
          ∧ (st.isDict = true → ∃ out, validateToolCall (some tc) md st = some out
              ∧ out.name = name
              ∧ out.args.get "lines" = pyOr (st.get "line_items") (.plist [])))
    ∧ (∀ (tc : PyToolCall) (md st : PyVal),
        tc.name = .pstr "extract_pdf_tool" →
        ((normArgs tc).get "file_path").isStr = false →
          (extractFirstFile md = none → validateToolCall (some tc) md st = none)
          ∧ (∀ fp, extractFirstFile md = some fp →
              ∃ out, validateToolCall (some tc) md st = some out
                ∧ out.name = "extract_pdf_tool" ∧ out.args.get "file_path" = .pstr fp))
    ∧ (∀ (tc : PyToolCall) (md st : PyVal),
        tc.name = .pstr "supabase_lookup_tool" →
        ((normArgs tc).get "query" = .pnone
          ∨ (((normArgs tc).get "query").isStr ∧ strTrim ((normArgs tc).get "query").asStr = "")) →
          (pyStr (pyOr ((normArgs tc).get "mode") (.pstr "auto")) ≠ "prefill" →
              validateToolCall (some tc) md st = none)
          ∧ (pyStr (pyOr ((normArgs tc).get "mode") (.pstr "auto")) = "prefill" →
              ∃ out, validateToolCall (some tc) md st = some out
                ∧ out.args.get "query" = .pnone))
    ∧ (∀ (t : Option PyToolCall) (md st : PyVal) (out : ToolCall),
        validateToolCall t md st = some out →
          (out.name = "validate_devis_tool" → (out.args.get "payload").isDict = true)
          ∧ ((out.name = "calculate_totals_tool" ∨ out.name = "clean_lines_tool") →
              (out.args.get "lines").isList = true
              ∨ out.args.get "lines" = pyOr (st.get "line_items") (.plist []))
          ∧ (out.name = "extract_pdf_tool" → (out.args.get "file_path").isStr = true)
          ∧ (out.name = "supabase_lookup_tool" →
              ¬((out.args.get "query").isStr = true
                 ∧ strTrim (out.args.get "query").asStr = ""))) := by
  refine ⟨?_, ?_, ?_, ?_, ?_⟩
  · intro tc md st hn hp
    constructor
    · intro hst
      have h1 : validateArgsPayload "validate_devis_tool" (normArgs tc) st = none := by
        simp [validateArgsPayload, hp, hst]
      simp [validateToolCall, allowedToolNames, hn, h1]
    · intro hst
      have h1 : validateArgsPayload "validate_devis_tool" (normArgs tc) st
          = some ((normArgs tc).setKey "payload" st) := by
        simp [validateArgsPayload, hp, hst]
      refine ⟨⟨"validate_devis_tool", (normArgs tc).setKey "payload" st⟩, ?_, rfl, ?_⟩
      · simp [validateToolCall, allowedToolNames, hn, h1, validateArgsLines_skip,
          validateArgsFilePath_skip, validateArgsQuery_skip]
      · exact get_setKey_self _ (normArgs_isDict tc) _ _
  · intro tc md st name hname hn hl
    rcases hname with rfl | rfl
    · constructor
      · intro hst
        have h1 : validateArgsLines "calculate_totals_tool" (normArgs tc) st = none := by
          simp [validateArgsLines, hl, hst]
        simp [validateToolCall, allowedToolNames, hn, h1, validateArgsPayload_skip]
      · intro hst
        have h1 : validateArgsLines "calculate_totals_tool" (normArgs tc) st
            = some ((normArgs tc).setKey "lines" (pyOr (st.get "line_items") (.plist []))) := by
          simp [validateArgsLines, hl, hst]
        refine ⟨⟨"calculate_totals_tool",
                 (normArgs tc).setKey "lines" (pyOr (st.get "line_items") (.plist []))⟩,
                ?_, rfl, ?_⟩
        · simp [validateToolCall, allowedToolNames, hn, h1, validateArgsPayload_skip,
            validateArgsFilePath_skip, validateArgsQuery_skip]
        · exact get_setKey_self _ (normArgs_isDict tc) _ _
    · constructor
      · intro hst
        have h1 : validateArgsLines "clean_lines_tool" (normArgs tc) st = none := by
          simp [validateArgsLines, hl, hst]
        simp [validateToolCall, allowedToolNames, hn, h1, validateArgsPayload_skip]
      · intro hst
        have h1 : validateArgsLines "clean_lines_tool" (normArgs tc) st
            = some ((normArgs tc).setKey "lines" (pyOr (st.get "line_items") (.plist []))) := by
          simp [validateArgsLines, hl, hst]
        refine ⟨⟨"clean_lines_tool",
                 (normArgs tc).setKey "lines" (pyOr (st.get "line_items") (.plist []))⟩,
                ?_, rfl, ?_⟩
        · simp [validateToolCall, allowedToolNames, hn, h1, validateArgsPayload_skip,
            validateArgsFilePath_skip, validateArgsQuery_skip]
        · exact get_setKey_self _ (normArgs_isDict tc) _ _
  · intro tc md st hn hf
    constructor
    · intro hmd
      have h1 : validateArgsFilePath "extract_pdf_tool" (normArgs tc) md = none := by
        simp [validateArgsFilePath, hf, hmd]
      simp [validateToolCall, allowedToolNames, hn, h1, validateArgsPayload_skip,
        validateArgsLines_skip]
    · intro fp hmd
      have h1 : validateArgsFilePath "extract_pdf_tool" (normArgs tc) md
          = some ((normArgs tc).setKey "file_path" (.pstr fp)) := by
        simp [validateArgsFilePath, hf, hmd]
      refine ⟨⟨"extract_pdf_tool", (normArgs tc).setKey "file_path" (.pstr fp)⟩, ?_, rfl, ?_⟩
      · simp [validateToolCall, allowedToolNames, hn, h1, validateArgsPayload_skip,
          validateArgsLines_skip, validateArgsQuery_skip]
      · exact get_setKey_self _ (normArgs_isDict tc) _ _
  · intro tc md st hn hq
    constructor
    · intro hmode
      have h1 : validateArgsQuery "supabase_lookup_tool" (normArgs tc) = none := by
        rcases hq with hq | hq
        · simp [validateArgsQuery, hq, hmode]
        · simp [validateArgsQuery, hq.1, hq.2, hmode]
      simp [validateToolCall, allowedToolNames, hn, h1, validateArgsPayload_skip,
        validateArgsLines_skip, validateArgsFilePath_skip]
    · intro hmode
      have h1 : validateArgsQuery "supabase_lookup_tool" (normArgs tc)
          = some ((normArgs tc).setKey "query" .pnone) := by
        rcases hq with hq | hq
        · simp [validateArgsQuery, hq, hmode]
        · simp [validateArgsQuery, hq.1, hq.2, hmode]
      refine ⟨⟨"supabase_lookup_tool", (normArgs tc).setKey "query" .pnone⟩, ?_, ?_⟩
      · simp [validateToolCall, allowedToolNames, hn, h1, validateArgsPayload_skip,
          validateArgsLines_skip, validateArgsFilePath_skip]
      · exact get_setKey_self _ (normArgs_isDict tc) _ _
  · intro t md st out h
    cases t with
    | none => simp [validateToolCall] at h
    | some tc =>
        cases hn : tc.name with
        | pstr name =>
            by_cases hm : name ∈ allowedToolNames
            · simp only [validateToolCall, hn, hm, if_true, Option.map_eq_some'] at h
              obtain ⟨afin, hchain, hout⟩ := h
              obtain ⟨a3, h123, h4⟩ := Option.bind_eq_some.mp hchain
              obtain ⟨a2, h12, h3⟩ := Option.bind_eq_some.mp h123
              obtain ⟨a1, h1, h2⟩ := Option.bind_eq_some.mp h12
              rw [← hout]
              refine ⟨?_, ?_, ?_, ?_⟩
              · intro hv
                simp only at hv
                subst hv
                rw [validateArgsLines_skip "validate_devis_tool" (by decide) (by decide)] at h2
                rw [validateArgsFilePath_skip "validate_devis_tool" (by decide)] at h3
                rw [validateArgsQuery_skip "validate_devis_tool" (by decide)] at h4
                cases h2; cases h3; cases h4
                exact validateArgsPayload_sound _ _ _ (normArgs_isDict tc) h1
              · intro hv
                have hname : name = "calculate_totals_tool" ∨ name = "clean_lines_tool" := by
                  simpa using hv
                rcases hname with rfl | rfl
                · rw [validateArgsPayload_skip "calculate_totals_tool" (by decide)] at h1
                  rw [validateArgsFilePath_skip "calculate_totals_tool" (by decide)] at h3
                  rw [validateArgsQuery_skip "calculate_totals_tool" (by decide)] at h4
                  cases h1; cases h3; cases h4
                  exact validateArgsLines_sound _ _ _ _ (normArgs_isDict tc) (by simp) h2
                · rw [validateArgsPayload_skip "clean_lines_tool" (by decide)] at h1
                  rw [validateArgsFilePath_skip "clean_lines_tool" (by decide)] at h3
                  rw [validateArgsQuery_skip "clean_lines_tool" (by decide)] at h4
                  cases h1; cases h3; cases h4
                  exact validateArgsLines_sound _ _ _ _ (normArgs_isDict tc) (by simp) h2
              · intro hv
                simp only at hv
                subst hv
                rw [validateArgsPayload_skip "extract_pdf_tool" (by decide)] at h1
                rw [validateArgsLines_skip "extract_pdf_tool" (by decide) (by decide)] at h2
                rw [validateArgsQuery_skip "extract_pdf_tool" (by decide)] at h4
                cases h1; cases h2; cases h4
                exact validateArgsFilePath_sound _ _ _ (normArgs_isDict tc) h3
              · intro hv
                simp only at hv
                subst hv
                rw [validateArgsPayload_skip "supabase_lookup_tool" (by decide)] at h1
                rw [validateArgsLines_skip "supabase_lookup_tool" (by decide) (by decide)] at h2
                rw [validateArgsFilePath_skip "supabase_lookup_tool" (by decide)] at h3
                cases h1; cases h2; cases h3
                exact validateArgsQuery_sound _ _ (normArgs_isDict tc) h4
            · simp [validateToolCall, hn, hm] at h
        | pnone => simp [validateToolCall, hn] at h
        | pnum q => simp [validateToolCall, hn] at h
        | pbool b => simp [validateToolCall, hn] at h
        | plist l => simp [validateToolCall, hn] at h
        | pdict d => simp [validateToolCall, hn] at h

/-- Witness for `validate_backfill_or_discard` at concrete inputs: a
`validate_devis_tool` call with no payload and no structured payload is
discarded; a `calculate_totals_tool` call with no lines is backfilled from the
structured payload; a `supabase_lookup_tool` call with no query in `auto` mode
is discarded. -/
theorem validate_backfill_or_discard_witness :
    validateToolCall (some ⟨.pstr "validate_devis_tool", .pdict []⟩) (.pdict []) .pnone = none
    ∧ (∃ out, validateToolCall (some ⟨.pstr "calculate_totals_tool", .pdict []⟩) (.pdict [])
          (.pdict [("line_items", .plist [])]) = some out
        ∧ out.name = "calculate_totals_tool"
        ∧ out.args.get "lines"
            = pyOr ((PyVal.pdict [("line_items", .plist [])]).get "line_items") (.plist []))
    ∧ validateToolCall (some ⟨.pstr "supabase_lookup_tool", .pdict []⟩) (.pdict []) .pnone
        = none := by
  refine ⟨?_, ?_, ?_⟩
  · exact (validate_backfill_or_discard.1 ⟨.pstr "validate_devis_tool", .pdict []⟩
      (.pdict []) .pnone (by decide) (by decide)).1 (by decide)
  · exact (validate_backfill_or_discard.2.1 ⟨.pstr "calculate_totals_tool", .pdict []⟩
      (.pdict []) (.pdict [("line_items", .plist [])]) "calculate_totals_tool"
      (Or.inl rfl) (by decide) (by decide)).2 (by decide)
  · exact (validate_backfill_or_discard.2.2.2.1 ⟨.pstr "supabase_lookup_tool", .pdict []⟩
      (.pdict []) .pnone (by decide) (Or.inl (by decide))).1 (by decide)

/-! ## C3 — fast-path safety for gated messages -/

/-- **C3 counterexample** — a message that matches the full-pipeline gate
(`"combien"` and `"fuite"` are full-pipeline keywords) but starts with a
greeting: the step-1 static heuristic fires before the gate is consulted, so
`try_fast_path` returns the canned greeting, not null. -/
theorem fastPath_gate_counterexample :
    shouldUseFullPipeline "Bonjour combien pour une fuite" PyVal.pnone = true
    ∧ tryFastPath "Bonjour combien pour une fuite" PyVal.pnone none [] (.ok "")
        = some fastGreetingReply := by
  constructor
  · decide
  · decide

/-- **C3 (amended)** — for every message that matches the full-pipeline gate
and is not answered by the step-1 static heuristics (empty message, who-am-I,
greeting, short thanks, portfolio-reference), `try_fast_path` returns null,
for all metadata, user roles, histories and model outcomes. -/
theorem fastPath_gate_returns_none (message : String) (metadata : PyVal)
    (userRole : Option String) (history : List (String × String)) (outcome : LLMOutcome)
    (hheur : heuristicFastReply message = none)
    (hgate : shouldUseFullPipeline message metadata = true) :
    tryFastPath message metadata userRole history outcome = none := by
  by_cases hc : isCorpsMetierQuestion message <;>
    simp [tryFastPath, hheur, hgate, hc]

/-- Witness for `fastPath_gate_returns_none`: a price question passes no
static heuristic, matches the gate, and is routed to the full pipeline. -/
theorem fastPath_gate_returns_none_witness :
    heuristicFastReply "quel est le prix" = none
    ∧ shouldUseFullPipeline "quel est le prix" PyVal.pnone = true
    ∧ tryFastPath "quel est le prix" PyVal.pnone none [] (.ok "") = none :=
  ⟨by decide, by decide,
   fastPath_gate_returns_none "quel est le prix" PyVal.pnone none [] (.ok "")
     (by decide) (by decide)⟩

/-! ## C8 — step-5 failure semantics -/

/-- **C8 counterexample** — a model reply that fails to parse as the
structured `{answer, question}` JSON payload does not make `try_fast_path`
return null: the raw text is compacted and returned.  The message passes the
fast-path allow-list (a definition question), the reply is plain prose. -/
theorem fastPath_parse_failure_counterexample :
    maybeParseJson "Voici une explication simple." = none
    ∧ tryFastPath "c'est quoi un bim" PyVal.pnone none []
        (.ok "Voici une explication simple.")
        = some "Voici une explication simple." := by
  constructor
  · decide
  · decide

/-- **C8 (amended)** — for a message that reaches step 5 (no heuristic reply,
no trade override, gate closed, allow-listed, non-blank): a model call that
raises returns null; empty model content returns null; and a reply that fails
to parse as the structured payload (not JSON, not a dict, or rejected by the
`FastPathPayload` validation) yields the compacted raw text — never an
exception, but not null. -/
theorem fastPath_step5_failure (message : String) (metadata : PyVal)
    (userRole : Option String) (history : List (String × String))
    (hheur : heuristicFastReply message = none)
    (hcorps : isCorpsMetierQuestion message = false)
    (hgate : shouldUseFullPipeline message metadata = false)
    (hcand : isFastPathCandidate message = true)
    (hmsg : strTrim message ≠ "") :
    tryFastPath message metadata userRole history .raised = none
    ∧ tryFastPath message metadata userRole history (.ok "") = none
    ∧ ∀ text, text ≠ "" →
        (maybeParseJson text = none
          ∨ (∃ v, maybeParseJson text = some v ∧ v.isDict = false)
          ∨ (∃ v, maybeParseJson text = some v ∧ validateFastPathPayload v = none)) →
        tryFastPath message metadata userRole history (.ok text)
          = fastPathCompactFallback text := by
  refine ⟨?_, ?_, ?_⟩
  · simp [tryFastPath, hheur, hcorps, hgate, hcand, hmsg, fastPathHandleModelOutput]
  · simp [tryFastPath, hheur, hcorps, hgate, hcand, hmsg, fastPathHandleModelOutput]
  · intro text htext hfail
    rcases hfail with hp | ⟨v, hp, hv⟩ | ⟨v, hp, hv⟩
    · simp [tryFastPath, hheur, hcorps, hgate, hcand, hmsg, fastPathHandleModelOutput,
        htext, hp]
    · simp [tryFastPath, hheur, hcorps, hgate, hcand, hmsg, fastPathHandleModelOutput,
        htext, hp, hv]
    · simp [tryFastPath, hheur, hcorps, hgate, hcand, hmsg, fastPathHandleModelOutput,
        htext, hp, hv]

/-- Witness for `fastPath_step5_failure` at a concrete definition question:
a raised model call falls through to null, and a prose reply is compacted. -/
theorem fastPath_step5_failure_witness :
    tryFastPath "c'est quoi un bim" PyVal.pnone none [] .raised = none
    ∧ tryFastPath "c'est quoi un bim" PyVal.pnone none []
        (.ok "Voici une explication simple.")
        = fastPathCompactFallback "Voici une explication simple." := by
  have h := fastPath_step5_failure "c'est quoi un bim" PyVal.pnone none []
    (by decide) (by decide) (by decide) (by decide) (by decide)
  exact ⟨h.1, h.2.2 "Voici une explication simple." (by decide) (Or.inl (by decide))⟩

/-! ## C9 — synthesizer prompt assembly -/

theorem length_mk_toList (l : List Char) : (String.mk l).length = l.length := rfl

theorem toList_length (s : String) : s.toList.length = s.length := rfl

theorem compactToolResult_le (v : PyVal) : (compactToolResult v).length ≤ 1201 := by
  by_cases h : (jsonDumps v).length > 1200
  · have e : compactToolResult v = String.mk ((jsonDumps v).toList.take 1200) ++ "…" := by
      simp only [compactToolResult]
      rw [if_pos h]
    rw [e, String.length_append]
    rw [show (String.mk ((jsonDumps v).toList.take 1200)).length
          = ((jsonDumps v).toList.take 1200).length from rfl]
    rw [List.length_take]
    have h2 : ("…" : String).length = 1 := rfl
    omega
  · have e : compactToolResult v = jsonDumps v := by
      simp only [compactToolResult]
      rw [if_neg h]
    rw [e]
    omega

theorem ragSnippet_le (doc : PyVal) (s : String) (h : ragSnippet doc = some s) :
    s.length ≤ 353 := by
  unfold ragSnippet at h
  split at h
  · next content heq =>
      split at h
      · cases h
      · by_cases hgt : (strReplaceChar (strTrim content) '\n' ' ').length > 350
        · simp only [hgt, if_true] at h
          cases h
          rw [String.length_append, String.length_append]
          rw [show (String.mk ((strReplaceChar (strTrim content) '\n' ' ').toList.take 350)).length
                = ((strReplaceChar (strTrim content) '\n' ' ').toList.take 350).length from rfl]
          rw [List.length_take]
          have h1 : ("- " : String).length = 2 := rfl
          have h2 : ("…" : String).length = 1 := rfl
          omega
        · simp only [hgt, if_false] at h
          cases h
          rw [String.length_append]
          have h1 : ("- " : String).length = 2 := rfl
          omega
  · cases h

theorem takeLast_length_le {α : Type} (n : Nat) (xs : List α) :
    (takeLast n xs).length ≤ n := by
  unfold takeLast
  rw [List.length_drop]
  omega

/-- **C9 (amended)** — the synthesizer prompt is assembled in the fixed order
system persona, then an optional single system context block (payload summary,
compacted tool result, RAG snippets), then the trimmed history (last six
turns, each filtered and mapped), then the current user message; the compacted
tool result is at most 1200 characters plus a one-character ellipsis (≤ 1201),
and at most 4 RAG snippet lines are included, each at most 350 characters plus
ellipsis and a two-character bullet prefix (≤ 353). -/
theorem buildMessages_structure :
    (∀ st : SynthState, ∃ ctx,
        buildMessagesForSynthesis st
          = [Msg.system synthesizerSystemPrompt] ++ ctx
            ++ (takeLast 6 (if st.history.isList then st.history.asList else [])).filterMap
                historyMsg
            ++ [Msg.human st.message]
        ∧ ctx.length ≤ 1
        ∧ (∀ m ∈ ctx, m = Msg.system (String.intercalate "\n" (synthContextLines st)))
        ∧ ((takeLast 6 (if st.history.isList then st.history.asList else [])).filterMap
            historyMsg).length ≤ 6)
    ∧ (∀ v, (compactToolResult v).length ≤ 1201)
    ∧ (∀ doc s, ragSnippet doc = some s → s.length ≤ 353)
    ∧ (∀ docs : List PyVal, ((docs.take 4).filterMap ragSnippet).length ≤ 4) := by
  refine ⟨?_, compactToolResult_le, ragSnippet_le, ?_⟩
  · intro st
    refine ⟨if ¬(synthContextLines st).isEmpty
              then [Msg.system (String.intercalate "\n" (synthContextLines st))] else [],
            rfl, ?_, ?_, ?_⟩
    · split <;> simp
    · split <;> simp
    · exact le_trans (List.length_filterMap_le _ _) (takeLast_length_le 6 _)
  · intro docs
    exact le_trans (List.length_filterMap_le _ _) (List.length_take_le 4 docs)

/-- The 1300-character tool result used in the C9 counterexample. -/
def synthLongToolResult : String := String.mk (List.replicate 1300 'a')

/-- A reachable synthesizer state with a long tool result: router chose
`extract_pdf_tool` and the tool returned `synthLongToolResult`. -/
def synthStateLong : SynthState :=
  { message := "m", history := .plist [], structuredPayload := .pnone,
    toolCall := some ⟨"extract_pdf_tool", .pdict []⟩,
    toolResult := .pstr synthLongToolResult, ragContext := .plist [] }

theorem foldl_append_length (xs : List String) :
    ∀ acc : String, (xs.foldl (· ++ ·) acc).length = acc.length + (xs.map String.length).sum := by
  induction xs with
  | nil => intro acc; simp
  | cons x rest ih =>
      intro acc
      simp only [List.foldl_cons, ih (acc ++ x), String.length_append, List.map_cons,
        List.sum_cons]
      omega

theorem jsonDumps_long_length : (jsonDumps (.pstr synthLongToolResult)).length = 1302 := by
  have h1 : synthLongToolResult.toList = List.replicate 1300 'a' := rfl
  have h2 : String.join (synthLongToolResult.toList.map jsonEscapeChar)
      = String.join (List.replicate 1300 "a") := by
    rw [h1, List.map_replicate]
    rfl
  have h3 : (String.join (List.replicate 1300 "a")).length = 1300 := by
    unfold String.join
    rw [foldl_append_length]
    rw [List.map_replicate, List.sum_replicate, smul_eq_mul]
    rfl
  simp only [jsonDumps, h2, String.length_append, h3]
  rfl

/-- **C9 counterexample** — a reachable synthesizer state whose prompt embeds
a compacted tool result of 1201 characters, exceeding the claimed 1200-character
bound (the code truncates to 1200 characters and appends an ellipsis). -/
theorem buildMessages_budget_counterexample :
    1200 < (compactToolResult (.pstr synthLongToolResult)).length
    ∧ (compactToolResult (.pstr synthLongToolResult)).length = 1201
    ∧ synthContextLines synthStateLong
        = ["tool=extract_pdf_tool: " ++ compactToolResult (.pstr synthLongToolResult)]
    ∧ buildMessagesForSynthesis synthStateLong
        = [Msg.system synthesizerSystemPrompt,
           Msg.system (String.intercalate "\n" (synthContextLines synthStateLong)),
           Msg.human "m"] := by
  have hlen : (compactToolResult (.pstr synthLongToolResult)).length = 1201 := by
    have e : compactToolResult (.pstr synthLongToolResult)
        = String.mk ((jsonDumps (.pstr synthLongToolResult)).toList.take 1200) ++ "…" := by
      simp only [compactToolResult]
      rw [if_pos (by rw [jsonDumps_long_length]; omega)]
    rw [e, String.length_append]
    rw [show (String.mk ((jsonDumps (.pstr synthLongToolResult)).toList.take 1200)).length
          = ((jsonDumps (.pstr synthLongToolResult)).toList.take 1200).length from rfl]
    rw [List.length_take, toList_length, jsonDumps_long_length]
    rfl
  have hctx : synthContextLines synthStateLong
      = ["tool=extract_pdf_tool: " ++ compactToolResult (.pstr synthLongToolResult)] := by
    simp [synthContextLines, synthStateLong, summarizeStructuredPayload, PyVal.isDict,
      PyVal.isList, PyVal.asList]
  refine ⟨by omega, hlen, hctx, ?_⟩
  unfold buildMessagesForSynthesis
  rw [hctx]
  simp [synthStateLong, takeLast, PyVal.isList, PyVal.asList]

/-- Witness for `buildMessages_structure` at concrete inputs: a short RAG
snippet and a short tool result respect the budgets. -/
theorem buildMessages_structure_witness :
    ("- abc" : String).length ≤ 353
    ∧ (compactToolResult (.pstr "x")).length ≤ 1201 :=
  ⟨buildMessages_structure.2.2.1 (.pdict [("content", .pstr "abc")]) "- abc" (by decide),
   buildMessages_structure.2.1 (.pstr "x")⟩

/-! ## C4 — missing-field completeness of `business_tools_node` -/

/-- **C4** — for a structured payload whose required fields are all falsy
(empty customer and supplier records; no number, date or payment terms; no
line items), the missing-field computation of `business_tools_node` reports
every required field, with the two invoice-only clauses included exactly when
`doc_type` is `"invoice"` and `line_items` last. -/
theorem businessMissingFields_complete (payload : PyVal)
    (hcn : ((pyOr (payload.get "customer") (.pdict [])).get "name").truthy = false)
    (hca : ((pyOr (payload.get "customer") (.pdict [])).get "address").truthy = false)
    (hcc : ((pyOr (payload.get "customer") (.pdict [])).get "contact").truthy = false)
    (hsn : ((pyOr (payload.get "supplier") (.pdict [])).get "name").truthy = false)
    (hsa : ((pyOr (payload.get "supplier") (.pdict [])).get "address").truthy = false)
    (hsc : ((pyOr (payload.get "supplier") (.pdict [])).get "contact").truthy = false)
    (hss : ((pyOr (payload.get "supplier") (.pdict [])).get "siret").truthy = false)
    (hst : ((pyOr (payload.get "supplier") (.pdict [])).get "tva_number").truthy = false)
    (hn : (payload.get "number").truthy = false)
    (hd : (payload.get "date").truthy = false)
    (hp : (payload.get "payment_terms").truthy = false)
    (hpen : (payload.get "penalties_late_payment").truthy = false)
    (hpro : (payload.get "professional_liability").truthy = false)
    (hli : (payload.get "line_items").truthy = false) :
    businessMissingFields payload
      = ["customer.name", "customer.address", "customer.contact",
         "supplier.name", "supplier.address", "supplier.contact",
         "supplier.siret", "supplier.tva_number", "number", "date", "payment_terms"]
        ++ (if payload.get "doc_type" = .pstr "invoice" then
              ["penalties_late_payment", "professional_liability"] else [])
        ++ ["line_items"] := by
  by_cases hdt : payload.get "doc_type" = .pstr "invoice" <;>
    simp [businessMissingFields, hcn, hca, hcc, hsn, hsa, hsc, hss, hst,
      hn, hd, hp, hpen, hpro, hli, hdt]

/-- Witness for `businessMissingFields_complete` at a concrete all-empty
invoice payload: all fourteen required fields are reported, in order. -/
theorem businessMissingFields_complete_witness :
    businessMissingFields (.pdict [("doc_type", .pstr "invoice")])
      = ["customer.name", "customer.address", "customer.contact",
         "supplier.name", "supplier.address", "supplier.contact",
         "supplier.siret", "supplier.tva_number", "number", "date", "payment_terms",
         "penalties_late_payment", "professional_liability", "line_items"] := by
  have h := businessMissingFields_complete (.pdict [("doc_type", .pstr "invoice")])
    (by decide) (by decide) (by decide) (by decide) (by decide) (by decide) (by decide)
    (by decide) (by decide) (by decide) (by decide) (by decide) (by decide) (by decide)
  rw [h]
  decide

/-! ## C5 — cache round-trip -/

/-- **C5 counterexample** — `RedisChatCache.set` accepts a whitespace-only
reply (only the empty string is refused) and reports success, but `get`
rejects any stored reply whose strip is empty: setting entry
`⟨" ", none⟩` under key `"bonjour"` succeeds, yet an immediate get on the
same key returns nothing, so the round trip does not return the reply
unchanged for every entry. -/
theorem cache_roundtrip_counterexample :
    (cacheSet (fun _ => none) "bonjour" ⟨" ", .pnone⟩).2 = true
    ∧ cacheGet (cacheSet (fun _ => none) "bonjour" ⟨" ", .pnone⟩).1 "bonjour" = none := by
  decide

/-- **C5 (amended)** — cache round-trip for replies with content: for every
backing store, non-empty normalized key and entry whose reply strips to a
non-empty string, `set` followed immediately by `get` on the same key returns
an entry whose reply equals the stored reply unchanged.  (The original claim,
for arbitrary entries, fails on whitespace-only replies.) -/
theorem cache_roundtrip (store : CacheStore) (k : String) (entry : CacheEntry)
    (hk : k ≠ "") (hr : strTrim entry.reply ≠ "") :
    ∃ e, cacheGet (cacheSet store k entry).1 k = some e ∧ e.reply = entry.reply := by
  have hr0 : entry.reply ≠ "" := fun he => hr (by rw [he]; rfl)
  have hset : (cacheSet store k entry).1
      = fun key => if key = cacheKey k
          then some (.pdict [("reply", .pstr entry.reply),
                             ("meta", pyOr entry.meta (.pdict []))])
          else store key := by
    unfold cacheSet
    rw [if_neg (by simp [hk, hr0])]
  refine ⟨⟨entry.reply,
      if (pyOr entry.meta (.pdict [])).isDict then pyOr entry.meta (.pdict [])
      else .pnone⟩, ?_, rfl⟩
  unfold cacheGet
  rw [if_neg hk, hset]
  simp only [if_pos rfl]
  simp only [PyVal.get, PyVal.isDict, List.find?]
  simp [hr]

/-- Witness for `cache_roundtrip`: storing reply `"Salut !"` under key
`"salut"` in an empty store and reading it back returns the same reply. -/
theorem cache_roundtrip_witness :
    ∃ e, cacheGet (cacheSet (fun _ => none) "salut" ⟨"Salut !", .pnone⟩).1 "salut"
        = some e
      ∧ e.reply = "Salut !" :=
  cache_roundtrip (fun _ => none) "salut" ⟨"Salut !", .pnone⟩ (by decide) (by decide)

/-! ## C6 — the chat handler caches only stateless requests -/

theorem isCacheable_structured (m : PyVal) (h : isCacheable m [] = true) :
    (m.get "structured_payload").isDict = false
    ∧ ∀ key ∈ (["line_items", "items", "client_name", "customer_name", "files",
                "validate_section"] : List String), m.hasKey key = false := by
  cases m with
  | pnone => exact ⟨rfl, fun key _ => rfl⟩
  | pstr s => exact ⟨rfl, fun key _ => rfl⟩
  | pnum q => exact ⟨rfl, fun key _ => rfl⟩
  | pbool b => exact ⟨rfl, fun key _ => rfl⟩
  | plist l => exact ⟨rfl, fun key _ => rfl⟩
  | pdict kvs =>
      cases kvs with
      | nil => exact ⟨rfl, fun key _ => rfl⟩
      | cons kv rest =>
          unfold isCacheable at h
          rw [if_neg (by simp)] at h
          rw [if_neg (by simp [PyVal.isDict])] at h
          by_cases h1 : ((PyVal.pdict (kv :: rest)).get "structured_payload").isDict = true
          · rw [if_pos h1] at h
            simp at h
          · rw [if_neg h1] at h
            by_cases h2 : (["line_items", "items", "client_name", "customer_name", "files",
                "validate_section"] : List String).any (PyVal.pdict (kv :: rest)).hasKey = true
            · rw [if_pos h2] at h
              simp at h
            · refine ⟨by simpa using h1, ?_⟩
              intro key hkey
              by_contra hc
              exact h2 (List.any_eq_true.mpr ⟨key, hkey, by simpa using hc⟩)

/-- **C6** — the chat handler writes a reply to the cache only for stateless
requests: whenever the cache-write control flow of `handle_chat_non_stream`
invokes `cache.set`, the request carried no history, its metadata holds no
structured payload dict and none of the file-reference or document keys, and
no stored conversation history was loaded. -/
theorem chat_cache_write_stateless (req : ChatRequest) (storeEnabled : Bool)
    (storedHistory : List PyVal) (cacheEnabled : Bool) (hit : Option CacheEntry)
    (fast : Option String) (reply : String)
    (h : chatCacheSetInvoked req storeEnabled storedHistory cacheEnabled hit fast reply
          = true) :
    req.history = []
    ∧ (req.metadata.get "structured_payload").isDict = false
    ∧ (∀ key ∈ (["line_items", "items", "client_name", "customer_name", "files",
                 "validate_section"] : List String), req.metadata.hasKey key = false)
    ∧ (storeEnabled = true → req.conversationId.isSome = true → storedHistory = []) := by
  simp only [chatCacheSetInvoked] at h
  set S := (if storeEnabled ∧ req.conversationId.isSome ∧ req.history.isEmpty
      then storedHistory else []) with hS
  set HD := (if ¬S.isEmpty ∧ isContextDependent req.message S then S else req.history)
    with hHD
  have key : isCacheable req.metadata HD = true ∧ S.isEmpty = true := by
    split at h
    · simp at h
    · split at h
      · exact (of_decide_eq_true h).2
      · exact (of_decide_eq_true h).2.1
  have hSnil : S = [] := by
    cases hc : S with
    | nil => rfl
    | cons a t =>
        rw [hc] at key
        simp at key
  have hHDr : HD = req.history := by
    rw [hHD, if_neg]
    intro hcon
    rw [hSnil] at hcon
    simp at hcon
  have hkey1 := key.1
  rw [hHDr] at hkey1
  have hhist : req.history = [] := by
    cases hh : req.history with
    | nil => rfl
    | cons a t =>
        rw [hh] at hkey1
        unfold isCacheable at hkey1
        rw [if_pos (by simp)] at hkey1
        simp at hkey1
  rw [hhist] at hkey1
  refine ⟨hhist, (isCacheable_structured req.metadata hkey1).1,
    (isCacheable_structured req.metadata hkey1).2, ?_⟩
  intro h1 h2
  rw [if_pos ⟨h1, h2, by rw [hhist]; rfl⟩] at hS
  rw [← hS, hSnil]

/-- Witness for `chat_cache_write_stateless`: a stateless request (no history,
empty metadata dict, no conversation id) with a cache hit absent and a
non-empty synthesized reply does invoke `cache.set`, and the statelessness
conclusions hold for it. -/
theorem chat_cache_write_stateless_witness :
    chatCacheSetInvoked ⟨"Bonjour", [], .pdict [], none⟩ false [] true none none "Salut !"
        = true
    ∧ ((⟨"Bonjour", [], .pdict [], none⟩ : ChatRequest).history = []
       ∧ ((⟨"Bonjour", [], .pdict [], none⟩ : ChatRequest).metadata.get
            "structured_payload").isDict = false
       ∧ (∀ key ∈ (["line_items", "items", "client_name", "customer_name", "files",
                    "validate_section"] : List String),
            (⟨"Bonjour", [], .pdict [], none⟩ : ChatRequest).metadata.hasKey key = false)
       ∧ (false = true → (none : Option String).isSome = true → ([] : List PyVal) = [])) :=
  ⟨by decide,
   chat_cache_write_stateless ⟨"Bonjour", [], .pdict [], none⟩ false [] true none none
     "Salut !" (by decide)⟩

end Nextmind